import Mathlib

/-
Verification development for the ISF bulletin importer
(eqcatalogue/importers/isf_bulletin.py).

The importer is a line-oriented finite-state machine: each input line is
classified into a line type, the current parser state computes a successor
state, and the successor state decodes the line and issues find-or-create
operations against a catalogue database.  The development below is a shallow
embedding of that module:

  * Python floats are modelled as exact decimal values (`PyFloat`): the
    decoded fields are decimal literals that are only parsed and stored,
    never compared or computed with;
  * Python's dynamically typed values are modelled by `PyVal`;
  * Python exceptions are modelled by `PyErr`; `Except PyErr` marks the
    fallible code paths, and partially-applied mutations are threaded
    explicitly so that a raised exception preserves the side effects that
    happened before the raise, as in the source;
  * the catalogue collaborator (`CatalogueDatabase.get_or_create` from
    eqcatalogue/models.py together with the SQLAlchemy session) is modelled
    as a record store with a committed part and a pending part: queries see
    both, commit moves pending into committed, rollback drops pending.
    Modelled from the spec: the external store may report an
    integrity/uniqueness violation when an operation is issued; this is
    represented by the fault oracle `failOps` (the spec treats persistence
    as a black box that can raise such a conflict at any find-or-create).
-/

namespace Isf

set_option maxRecDepth 100000

/-- Decidable equality for `Except`, needed to state and decide equations
about fallible decoding results. -/
instance {ε α : Type} [DecidableEq ε] [DecidableEq α] : DecidableEq (Except ε α) :=
  fun a b =>
  match a, b with
  | .error e1, .error e2 =>
    if h : e1 = e2 then .isTrue (by rw [h]) else .isFalse (by simp [h])
  | .ok v1, .ok v2 =>
    if h : v1 = v2 then .isTrue (by rw [h]) else .isFalse (by simp [h])
  | .error _, .ok _ => .isFalse (by simp)
  | .ok _, .error _ => .isFalse (by simp)

/-- A Python float, modelled as the exact decimal value
`mant / 10 ^ shift` produced by parsing a decimal literal.  The importer
only parses floats and stores them — it never compares them or computes
with them — so the representation needs no normalisation. -/
structure PyFloat where
  mant : ℤ
  shift : ℕ
deriving DecidableEq, Repr

/-- Python exception classes that can be raised by the importer code paths.
`valueErr` and `unexpectedLine` are the two classes caught by the recovery
handler in `Importer.store`; `integrityErr` is caught and re-raised as a
parsing failure; the others escape. -/
inductive PyErr where
  | valueErr
  | typeErr
  | keyErr
  | indexErr
  | attrErr
  | assertionErr
  | integrityErr
deriving DecidableEq, Repr

/-- Dynamically typed Python values as they flow through the importer:
strings, floats (as exact decimals), ints, None, datetime values,
geographic positions, references to persisted entities (by id), tuples and
booleans. -/
inductive PyVal where
  | str (s : String)
  | num (f : PyFloat)
  | int (z : ℤ)
  | nil
  | date (y mo d h mi s us : ℤ)
  | pos (lat lng : PyFloat)
  | ref (id : ℕ)
  | pair (a b : PyVal)
  | bool (b : Bool)
deriving DecidableEq, Repr

/-- Whitespace characters recognised by Python's `str.strip()` and the
regex class `\s` (ASCII). -/
def isPySpace (c : Char) : Bool :=
  c = ' ' || c = '\t' || c = '\n' || c = '\r' || c = '\x0b' || c = '\x0c'

/-- Word characters of the regex class `\w` (the source is Python 2, so the
default is ASCII letters, digits and underscore). -/
def isWordChar (c : Char) : Bool :=
  ('a' ≤ c && c ≤ 'z') || ('A' ≤ c && c ≤ 'Z') || ('0' ≤ c && c ≤ '9') || c = '_'

/-- Python `str.strip()` on a character list. -/
def stripChars (l : List Char) : List Char :=
  ((l.dropWhile isPySpace).reverse.dropWhile isPySpace).reverse

/-- Python `str.strip()`. -/
def pyStrip (s : String) : String :=
  ⟨stripChars s.toList⟩

/-- Python slicing `line[a:b]` (end-exclusive, clamped). -/
def pySlice (l : List Char) (a b : ℕ) : List Char :=
  (l.drop a).take (b - a)

/-- The string `line[a:b].strip()`, the idiom used for every fixed-width
field of the ISF layout. -/
def sliceStrip (l : List Char) (a b : ℕ) : String :=
  ⟨stripChars (pySlice l a b)⟩

/-- Python single-character indexing `line[i]`; raises IndexError when the
line is too short. -/
def pyIndex (l : List Char) (i : ℕ) : Except PyErr Char :=
  match l.drop i with
  | [] => .error .indexErr
  | c :: _ => .ok c

/-- Decimal digit run: accumulated value and number of digits consumed. -/
def takeDigits : List Char → ℕ → ℕ → (ℕ × ℕ × List Char)
  | [], acc, n => (acc, n, [])
  | c :: rest, acc, n =>
    if c.isDigit then takeDigits rest (acc * 10 + (c.toNat - '0'.toNat)) (n + 1)
    else (acc, n, c :: rest)

/-- Optional sign prefix: returns the sign together with the remainder. -/
def takeSign : List Char → (Bool × List Char)
  | '-' :: rest => (true, rest)
  | '+' :: rest => (false, rest)
  | l => (false, l)

/-- Python `float(s)` on decimal literals (optionally signed, optional
fraction, optional exponent), modelled exactly as a `PyFloat`.
Surrounding whitespace is accepted, anything else raises ValueError.  The
special values inf/nan do not occur in ISF fields and are not modelled. -/
def pyFloat (s : String) : Except PyErr PyFloat :=
  let l := stripChars s.toList
  let (neg, l) := takeSign l
  let (ip, ic, l) := takeDigits l 0 0
  let (fp, fc, l) :=
    match l with
    | '.' :: rest => takeDigits rest 0 0
    | _ => (0, 0, l)
  if ic + fc = 0 then .error .valueErr else
  let mant : ℤ := if neg then -((ip * 10 ^ fc + fp : ℕ) : ℤ) else ((ip * 10 ^ fc + fp : ℕ) : ℤ)
  match l with
  | [] => .ok ⟨mant, fc⟩
  | e :: rest =>
    if e = 'e' || e = 'E' then
      let (eneg, rest) := takeSign rest
      let (ev, ec, rest) := takeDigits rest 0 0
      if ec = 0 || rest ≠ [] then .error .valueErr
      else if eneg then .ok ⟨mant, fc + ev⟩
      else .ok ⟨mant * 10 ^ ev, fc⟩
    else .error .valueErr

/-- Python `int(s)` for decimal strings: optional sign, digits only,
surrounding whitespace accepted; ValueError otherwise. -/
def pyIntStr (s : String) : Except PyErr ℤ :=
  let l := stripChars s.toList
  let (neg, l) := takeSign l
  let (v, n, rest) := takeDigits l 0 0
  if n = 0 || rest ≠ [] then .error .valueErr
  else .ok (if neg then -(v : ℤ) else (v : ℤ))

/-- Gregorian leap-year rule used by `datetime`. -/
def isLeap (y : ℤ) : Bool :=
  y % 4 = 0 && (y % 100 ≠ 0 || y % 400 = 0)

/-- Day count of a month, as validated by `datetime.datetime`. -/
def daysInMonth (y mo : ℤ) : ℤ :=
  if mo = 1 || mo = 3 || mo = 5 || mo = 7 || mo = 8 || mo = 10 || mo = 12 then 31
  else if mo = 4 || mo = 6 || mo = 9 || mo = 11 then 30
  else if isLeap y then 29 else 28

/-- Range validation performed by the `datetime.datetime` constructor;
out-of-range components raise ValueError. -/
def mkDatetimeChecked (y mo d h mi s us : ℤ) : Except PyErr PyVal :=
  if 1 ≤ y ∧ y ≤ 9999 ∧ 1 ≤ mo ∧ mo ≤ 12 ∧ 1 ≤ d ∧ d ≤ daysInMonth y mo ∧
     0 ≤ h ∧ h ≤ 23 ∧ 0 ≤ mi ∧ mi ≤ 59 ∧ 0 ≤ s ∧ s ≤ 59 ∧ 0 ≤ us ∧ us ≤ 999999
  then .ok (.date y mo d h mi s us)
  else .error .valueErr

/-- `datetime.datetime(*components)`: three to seven positional arguments
(year, month, day, then optional hour, minute, second, microsecond); a
different arity raises TypeError. -/
def mkDatetime : List ℤ → Except PyErr PyVal
  | [y, mo, d] => mkDatetimeChecked y mo d 0 0 0 0
  | [y, mo, d, h] => mkDatetimeChecked y mo d h 0 0 0
  | [y, mo, d, h, mi] => mkDatetimeChecked y mo d h mi 0 0
  | [y, mo, d, h, mi, s] => mkDatetimeChecked y mo d h mi s 0
  | [y, mo, d, h, mi, s, us] => mkDatetimeChecked y mo d h mi s us
  | _ => .error .typeErr

/-- Length of the leading run of characters satisfying `p`. -/
def countLeading (p : Char → Bool) : List Char → ℕ
  | [] => 0
  | c :: rest => if p c then countLeading p rest + 1 else 0

/-- Greedy search over a bounded repetition count: tries `k, k-1, …, 1` and
returns the first success, mirroring how a backtracking regex engine
resolves `\s+` (longest first). -/
def tryDownFrom (f : ℕ → Option α) : ℕ → Option α
  | 0 => none
  | k + 1 =>
    match f (k + 1) with
    | some r => some r
    | none => tryDownFrom f k

/-- Greedy search over `k, k-1, …, 1, 0`, mirroring `\w{0,9}`-style
bounded greedy repetition. -/
def tryDownTo0 (f : ℕ → Option α) (k : ℕ) : Option α :=
  match tryDownFrom f k with
  | some r => some r
  | none => f 0

/-- Matcher for `EventState.match`, the compiled form of the pattern
`^Event\s+(?P<source_event_id>\w{0,9}) (?P<name>.{0,65})$` with Python's
leftmost-greedy semantics; returns the two captured groups. -/
def eventMatch (l : List Char) : Option (String × String) :=
  if l.take 5 = "Event".toList then
    let rest := l.drop 5
    tryDownFrom (fun ws =>
      let r1 := rest.drop ws
      tryDownTo0 (fun w =>
        let sk := r1.take w
        match r1.drop w with
        | ' ' :: name =>
          if name.length ≤ 65 && name.all (· ≠ '\n') then
            some (⟨sk⟩, (⟨name⟩ : String))
          else none
        | _ => none) (min 9 (countLeading isWordChar r1)))
      (countLeading isPySpace rest)
  else none

/-- Scanner for the tail of the comment pattern: true iff the list splits as
`mid ++ ')' :: rest` with every character of `mid` different from a newline
(the characters of `mid` are matched by `.`, the closer by `\)`). -/
def closeScan : List Char → Bool
  | [] => false
  | c :: cs => c = ')' || (c ≠ '\n' && closeScan cs)

/-- Compiled form of the comment pattern `^\([^\)].+\)` used by
`Importer._detect_line_type` (a prefix match: anything may follow the
closing parenthesis): an opening parenthesis, one character other than
`)`, then at least one `.`-matched character followed by `)`. -/
def commentMatch : List Char → Bool
  | a :: c :: c2 :: cs => a = '(' && (c ≠ ')' && (c2 ≠ '\n' && closeScan cs))
  | _ => false

/-- Literal token of a header pattern. -/
def matchLit (t : String) (l : List Char) : Option (List Char) :=
  if l.take t.length = t.toList then some (l.drop t.length) else none

/-- The separator `\s+` of the header patterns (at least one whitespace
character, consumed greedily — deterministic because every header token
starts with a non-whitespace character). -/
def matchWs1 (l : List Char) : Option (List Char) :=
  let n := countLeading isPySpace l
  if n = 0 then none else some (l.drop n)

/-- The anchor `$` of Python regexes: end of string, or just before a
single trailing newline. -/
def matchEnd (l : List Char) : Bool :=
  l = [] || l = ['\n']

/-- Header tokens: plain literals plus the special column title `Nst[a]*`
of the origin header. -/
inductive HdrTok where
  | lit (s : String)
  | nsta

/-- Match one header token. -/
def matchHdrTok : HdrTok → List Char → Option (List Char)
  | .lit s, l => matchLit s l
  | .nsta, l =>
    match matchLit "Nst" l with
    | some l1 => some (l1.drop (countLeading (· = 'a') l1))
    | none => none

/-- Match a `\s+`-separated sequence of header tokens. -/
def matchHdr : List HdrTok → List Char → Option (List Char)
  | [], l => some l
  | [t], l => matchHdrTok t l
  | t :: ts, l =>
    match matchHdrTok t l with
    | some l1 =>
      match matchWs1 l1 with
      | some l2 => matchHdr ts l2
      | none => none
    | none => none

/-- Column titles of the origin block header, as listed in
`Importer._detect_line_type`. -/
def originHeaderToks : List HdrTok :=
  [.lit "Date", .lit "Time", .lit "Err", .lit "RMS", .lit "Latitude",
   .lit "Longitude", .lit "Smaj", .lit "Smin", .lit "Az", .lit "Depth",
   .lit "Err", .lit "Ndef", .nsta, .lit "Gap", .lit "mdist", .lit "Mdist",
   .lit "Qual", .lit "Author", .lit "OrigID"]

/-- Compiled form of the anchored origin-header regex. -/
def originHeaderMatch (l : List Char) : Bool :=
  match matchHdr originHeaderToks l with
  | some rest => matchEnd rest
  | none => false

/-- Column titles of the measure block header. -/
def measureHeaderToks : List HdrTok :=
  [.lit "Magnitude", .lit "Err", .lit "Nsta", .lit "Author", .lit "OrigID"]

/-- Compiled form of the anchored measure-header regex. -/
def measureHeaderMatch (l : List Char) : Bool :=
  match matchHdr measureHeaderToks l with
  | some rest => matchEnd rest
  | none => false

/-- Captured groups of the unknown-scale measure pattern: the value is
mandatory, the error and station groups are starred (may be absent), then
the agency (`[\w;]+`) and the origin id (`\w+`). -/
structure UkGroups where
  val : String
  error : Option String
  stations : Option String
  agency : String
  origin : String
deriving DecidableEq, Repr

/-- Greedy repetitions of `([0-9]+\.[0-9]+)*`; returns the last captured
repetition (Python keeps only the final one) and the remainder.  The fuel
argument bounds the recursion by the input length. -/
def ukReps : List Char → ℕ → Option String → (Option String × List Char)
  | l, 0, acc => (acc, l)
  | l, fuel + 1, acc =>
    let d1 := countLeading Char.isDigit l
    if d1 = 0 then (acc, l) else
    match l.drop d1 with
    | '.' :: l1 =>
      let d2 := countLeading Char.isDigit l1
      if d2 = 0 then (acc, l)
      else ukReps (l1.drop d2) fuel (some ⟨l.take (d1 + 1 + d2)⟩)
    | _ => (acc, l)

/-- Matcher for `MeasureUKScaleBlockState.match`, the compiled form of
`^(?P<val>-*[0-9]+\.[0-9]+)\s+(?P<error>[0-9]+\.[0-9]+)*\s+`
`(?P<stations>[0-9]+)*\s+(?P<agency>[\w;]+)\s+(?P<origin>\w+)$`.
The whitespace separators are resolved greedily (longest first) with
backtracking across the optional starred groups. -/
def ukMatch (l : List Char) : Option UkGroups :=
  let dn := countLeading (· = '-') l
  let l0 := l.drop dn
  let d1 := countLeading Char.isDigit l0
  if d1 = 0 then none else
  match l0.drop d1 with
  | '.' :: l1 =>
    let d2 := countLeading Char.isDigit l1
    if d2 = 0 then none else
    let valStr : String := ⟨l.take (dn + d1 + 1 + d2)⟩
    let s0 := l1.drop d2
    tryDownFrom (fun ws1 =>
      let p1 := s0.drop ws1
      let (errG, p2) := ukReps p1 p1.length none
      tryDownFrom (fun ws2 =>
        let p3 := p2.drop ws2
        let sd := countLeading Char.isDigit p3
        let staG : Option String := if sd = 0 then none else some ⟨p3.take sd⟩
        let p4 := p3.drop sd
        tryDownFrom (fun ws3 =>
          let p5 := p4.drop ws3
          let an := countLeading (fun c => isWordChar c || c = ';') p5
          if an = 0 then none else
          let p6 := p5.drop an
          tryDownFrom (fun ws4 =>
            let p7 := p6.drop ws4
            let onn := countLeading isWordChar p7
            if onn = 0 then none else
            if matchEnd (p7.drop onn) then
              some ⟨valStr, errG, staG, ⟨p5.take an⟩, ⟨p7.take onn⟩⟩
            else none) (countLeading isPySpace p6)) (countLeading isPySpace p4))
        (countLeading isPySpace p2)) (countLeading isPySpace s0)
  | _ => none

/-- The closed set of line kinds assigned by the classifier. -/
inductive LineType where
  | catalogueHeader
  | eventHeader
  | originHeader
  | originBlock
  | measureHeader
  | measureBlock
  | measureUnknownScaleBlock
  | comment
  | stop
  | junk
deriving DecidableEq, Repr

/-- `Importer._detect_line_type`, parameterised by the value of
`self._state.is_start()` at the moment of the call. -/
def detectLineType (line : String) (isStart : Bool) : LineType :=
  let l := line.toList
  if line = "ISC Bulletin" then .catalogueHeader
  else if line = "STOP" then .stop
  else if commentMatch l || (stripChars l).isEmpty then .comment
  else if originHeaderMatch l then .originHeader
  else if measureHeaderMatch l then .measureHeader
  else if (eventMatch l).isSome then .eventHeader
  else if l.length = 136 && !isStart then .originBlock
  else if l.length = 38 && !isStart then .measureBlock
  else if (ukMatch l).isSome then .measureUnknownScaleBlock
  else .junk

/-- Lookup in an association list keyed by strings (Python `dict.get` /
`dict[...]`). -/
def lookupA : List (String × α) → String → Option α
  | [], _ => none
  | (k, v) :: rest, key => if k = key then some v else lookupA rest key

/-- Assignment in an association list (Python `dict[...] = value`). -/
def setA : List (String × α) → String → α → List (String × α)
  | [], k, v => [(k, v)]
  | (k2, v2) :: rest, k, v =>
    if k2 = k then (k, v) :: rest else (k2, v2) :: setA rest k v

/-- Natural keys by which `get_or_create` looks up the domain records:
event sources by name, agencies/events/origins by source key and event
source, magnitude measures by (event, origin, agency, scale).  The agency
slot of a measure holds a `PyVal` because `_save_measure` may place a
non-entity value there (see claim C9). -/
inductive NatKey where
  | eventSource (name : String)
  | agency (sourceKey : String) (es : ℕ)
  | event (sourceKey : String) (es : ℕ)
  | origin (sourceKey : String) (es : ℕ)
  | measure (ev orig : ℕ) (agency : PyVal) (scale : String)
deriving DecidableEq, Repr

/-- A persisted record: identity, natural key, creation data. -/
structure Record where
  id : ℕ
  key : NatKey
  data : List (String × PyVal)
deriving DecidableEq, Repr

/-- Model of the catalogue database together with the SQLAlchemy session:
`committed` rows are durable, `pending` rows and `nameUpdates` are the
uncommitted unit of work (queries see both, `rollback` discards them,
`commit` makes them durable).  `failOps` is the fault oracle for the
external store: the n-th `get_or_create` call raises IntegrityError when
`n ∈ failOps` (modelled from the spec's persistence-conflict interface).
`rollbacks` counts the rollback calls issued. -/
structure Db where
  committed : List Record
  pending : List Record
  nameUpdates : List (ℕ × String)
  nextId : ℕ
  failOps : List ℕ
  opCount : ℕ
  rollbacks : ℕ
deriving DecidableEq, Repr

/-- `CatalogueDatabase.get_or_create` (eqcatalogue/models.py): query the
session by the natural key; if a row exists return it with `created =
False`, otherwise add a new row to the session and return it with
`created = True`. -/
def getOrCreate (db : Db) (key : NatKey) (creation : List (String × PyVal)) :
    Except PyErr (ℕ × Bool × Db) :=
  if db.failOps.contains db.opCount then .error .integrityErr
  else
    let db1 := { db with opCount := db.opCount + 1 }
    match (db1.committed ++ db1.pending).find? (fun r => decide (r.key = key)) with
    | some r => .ok (r.id, false, db1)
    | none =>
      .ok (db1.nextId, true,
        { db1 with
            pending := db1.pending ++ [⟨db1.nextId, key, creation⟩],
            nextId := db1.nextId + 1 })

/-- `session.rollback()`: the uncommitted unit of work is discarded. -/
def rollbackDb (db : Db) : Db :=
  { db with pending := [], nameUpdates := [], rollbacks := db.rollbacks + 1 }

/-- Apply the provisional name updates of the unit of work to a record. -/
def applyNameUpdates (ups : List (ℕ × String)) (r : Record) : Record :=
  ups.foldl
    (fun r u => if u.1 = r.id then { r with data := setA r.data "name" (.str u.2) } else r)
    r

/-- `session.commit()`: pending rows and provisional attribute updates
become durable. -/
def commitDb (db : Db) : Db :=
  { db with
      committed := (db.committed ++ db.pending).map (applyNameUpdates db.nameUpdates),
      pending := [],
      nameUpdates := [] }

/-- Current value of an event's `name` attribute as the session sees it
(provisional updates shadow the stored creation data). -/
def dbGetName (db : Db) (id : ℕ) : PyVal :=
  match (db.nameUpdates.filter (fun u => u.1 = id)).getLast? with
  | some u => .str u.2
  | none =>
    match (db.committed ++ db.pending).find? (fun r => decide (r.id = id)) with
    | some r => (lookupA r.data "name").getD .nil
    | none => .nil

/-- Provisional assignment `self.event.name = name`. -/
def dbSetName (db : Db) (id : ℕ) (nm : String) : Db :=
  { db with nameUpdates := db.nameUpdates ++ [(id, nm)] }

/-- The per-run parse context `self._context`: the agency and origin maps
shared by the states.  `_save_agency` stores the whole `(agency, created)`
tuple under the author key, so the agency map holds `PyVal`s. -/
structure Ctx where
  agencies : List (String × PyVal)
  origins : List (String × ℕ)
deriving DecidableEq, Repr

/-- The parser states of the FSM.  Entity references are ids; a state also
carries the event source of its event (in the source this is reachable as
`self.event.eventsource`).  `start` is the unique `StartState` instance
`self._initial`; its mutable `eventsource` field lives in the machine
(`Machine.startES`) because recovery re-installs that same object. -/
inductive PState where
  | start
  | eventSt (es : ℕ) (event : Option ℕ)
  | originHeaderSt (event es : ℕ)
  | originBlockSt (event es : ℕ) (metadata : Option (List (String × PyVal)))
  | measureHeaderSt (event es : ℕ) (metadata : Option (List (String × PyVal)))
  | measureBlockSt (event es : ℕ) (metadata : Option (List (String × PyVal)))
  | measureUKSt (event es : ℕ) (metadata : Option (List (String × PyVal)))
deriving DecidableEq, Repr

/-- The importer's mutable parsing state: the `eventsource` field of the
retained initial `StartState`, the current state, and the parse context. -/
structure Machine where
  startES : Option ℕ
  cur : PState
  ctx : Ctx
deriving DecidableEq, Repr

/-- `self._state.is_start()`: true only for a `StartState` whose event
source has not been established. -/
def isStartM (m : Machine) : Bool :=
  match m.cur with
  | .start => m.startES.isNone
  | _ => false

/-- The `_get_next_state` methods of all states, merged into one transition
function (the first argument is the `eventsource` field of the start
state). -/
def getNextState (startES : Option ℕ) : PState → LineType → Option PState
  | .start, .catalogueHeader => some .start
  | .start, .eventHeader =>
    match startES with
    | some es => some (.eventSt es none)
    | none => none
  | .eventSt es ev, .originHeader =>
    match ev with
    | some e => some (.originHeaderSt e es)
    | none => none
  | .originHeaderSt e es, .originBlock => some (.originBlockSt e es none)
  | .originBlockSt e es md, .measureHeader => some (.measureHeaderSt e es md)
  | .originBlockSt e es _, .originBlock => some (.originBlockSt e es none)
  | .originBlockSt _ es _, .eventHeader => some (.eventSt es none)
  | .measureHeaderSt e es md, .measureBlock => some (.measureBlockSt e es md)
  | .measureHeaderSt e es md, .measureUnknownScaleBlock => some (.measureUKSt e es md)
  | .measureBlockSt _ es _, .eventHeader => some (.eventSt es none)
  | .measureBlockSt e es md, .measureBlock => some (.measureBlockSt e es md)
  | .measureBlockSt e es md, .measureUnknownScaleBlock => some (.measureUKSt e es md)
  | .measureUKSt _ es _, .eventHeader => some (.eventSt es none)
  | .measureUKSt e es md, .measureBlock => some (.measureBlockSt e es md)
  | .measureUKSt e es md, .measureUnknownScaleBlock => some (.measureUKSt e es md)
  | _, _ => none

/-- Per-line created-entity counts, one bucket per entity kind (the dict
returned by `process_line`). -/
structure Counts where
  eventSources : ℕ
  events : ℕ
  agencies : ℕ
  origins : ℕ
  measures : ℕ
deriving DecidableEq, Repr

/-- The empty count delta. -/
def Counts.zero : Counts := ⟨0, 0, 0, 0, 0⟩

/-- Modelled from the spec: the Summary maintained by the `BaseImporter`
base class (eqcatalogue/importers/__init__.py is not among the sources).
The spec describes it as a per-entity-kind count map plus an ordered list
of recorded parse errors; each recorded `ParsingFailure` is determined by
its 1-based line number, so errors are modelled as line numbers. -/
structure Summary where
  counts : Counts
  errors : List ℕ
deriving DecidableEq, Repr

/-- The initial summary of a fresh importer. -/
def Summary.empty : Summary := ⟨Counts.zero, []⟩

/-- `Importer.update_summary`: pointwise addition of the per-line counts. -/
def Summary.addCounts (sm : Summary) (c : Counts) : Summary :=
  { sm with
      counts :=
        ⟨sm.counts.eventSources + c.eventSources, sm.counts.events + c.events,
         sm.counts.agencies + c.agencies, sm.counts.origins + c.origins,
         sm.counts.measures + c.measures⟩ }

/-- Appending a recorded parse error. -/
def Summary.addError (sm : Summary) (n : ℕ) : Summary :=
  { sm with errors := sm.errors ++ [n] }

/-- An optional fixed-width float field: blank decodes to None, otherwise
`float(...)` is applied. -/
def optFloatField (l : List Char) (a b : ℕ) : Except PyErr PyVal :=
  if (stripChars (pySlice l a b)).isEmpty then .ok .nil
  else
    match pyFloat ⟨pySlice l a b⟩ with
    | .error e => .error e
    | .ok q => .ok (.num q)

/-- An optional fixed-width int field: blank decodes to None, otherwise
`int(...)` is applied. -/
def optIntField (l : List Char) (a b : ℕ) : Except PyErr PyVal :=
  if (stripChars (pySlice l a b)).isEmpty then .ok .nil
  else
    match pyIntStr ⟨pySlice l a b⟩ with
    | .error e => .error e
    | .ok z => .ok (.int z)

/-- Python `str.split(sep)` for a single-character separator, as a
structural recursion (splits at every occurrence, keeping empty pieces). -/
def splitOnChar (sep : Char) : List Char → List Char → List String
  | [], acc => [⟨acc.reverse⟩]
  | c :: rest, acc =>
    if c = sep then (⟨acc.reverse⟩ : String) :: splitOnChar sep rest []
    else splitOnChar sep rest (c :: acc)

/-- Left-to-right conversion of the datetime components by `int(...)`,
propagating the first ValueError (the list comprehension of
`_process_time`). -/
def mapIntExcept : List String → Except PyErr (List ℤ)
  | [] => .ok []
  | s :: rest =>
    match pyIntStr s with
    | .error e => .error e
    | .ok z =>
      match mapIntExcept rest with
      | .error e => .error e
      | .ok zs => .ok (z :: zs)

/-- `OriginBlockState._process_time`: date and time components split on
`/` and `:`, optional centisecond column, each converted by `int`, then
passed to the `datetime` constructor. -/
def processTime (l : List Char) : Except PyErr PyVal :=
  let comps := splitOnChar '/' (pySlice l 0 10) [] ++
    splitOnChar ':' (pySlice l 11 19) []
  let comps := comps ++
    (if (stripChars (pySlice l 20 22)).isEmpty then []
     else [(⟨pySlice l 20 22⟩ : String)])
  match mapIntExcept comps with
  | .error e => .error e
  | .ok ints => mkDatetime ints

/-- The decoded origin fields: the trailing origin-id column (the natural
key) together with the keyword arguments passed to `_save_origin`. -/
structure OriginData where
  sourceKey : String
  data : List (String × PyVal)
deriving DecidableEq, Repr

/-- The pure decoding part of `OriginBlockState._process_origin`, in the
source's evaluation order (the first failing conversion determines the
raised exception). -/
def decodeOriginData (l : List Char) : Except PyErr OriginData :=
  match processTime l with
  | .error e => .error e
  | .ok time =>
  match pyIndex l 22 with
  | .error e => .error e
  | .ok c22 =>
  match (if c22 = 'f' then .ok .nil else optFloatField l 24 29 :
      Except PyErr PyVal) with
  | .error e => .error e
  | .ok timeError =>
  match optFloatField l 30 35 with
  | .error e => .error e
  | .ok timeRms =>
  match pyFloat ⟨pySlice l 36 44⟩ with
  | .error e => .error e
  | .ok lat =>
  match pyFloat ⟨pySlice l 45 54⟩ with
  | .error e => .error e
  | .ok lng =>
  match pyIndex l 54 with
  | .error e => .error e
  | .ok c54 =>
  match (if c54 = 'f' then .ok .nil else optFloatField l 55 60 :
      Except PyErr PyVal) with
  | .error e => .error e
  | .ok smaj =>
  match (if c54 = 'f' then .ok .nil else optFloatField l 61 66 :
      Except PyErr PyVal) with
  | .error e => .error e
  | .ok smin =>
  match optIntField l 93 96 with
  | .error e => .error e
  | .ok azimuth =>
  match optFloatField l 71 76 with
  | .error e => .error e
  | .ok depth =>
  match pyIndex l 76 with
  | .error e => .error e
  | .ok c76 =>
  match (if c76 = 'f' then .ok .nil else optFloatField l 78 82 :
      Except PyErr PyVal) with
  | .error e => .error e
  | .ok depthError =>
    .ok ⟨sliceStrip l 128 136,
      [("time", time), ("time_error", timeError), ("time_rms", timeRms),
       ("position", .pos lat lng), ("semi_major_90error", smaj),
       ("semi_minor_90error", smin), ("depth", depth),
       ("depth_error", depthError), ("azimuth_error", azimuth)]⟩

/-- `ANALYSIS_TYPES`. -/
def analysisTypes : List (String × String) :=
  [("a", "automatic"), ("m", "manual"), ("g", "guess")]

/-- `LOCATION_METHODS`. -/
def locationMethods : List (String × String) :=
  [("i", "inversion"), ("p", "pattern recognition"), ("g", "ground truth"),
   ("o", "other")]

/-- `EVENT_TYPES`. -/
def eventTypes : List (String × String) :=
  [("uk", "unknown"),
   ("de", "damaging earthquake ( Not standard IMS )"),
   ("fe", "felt earthquake ( Not standard IMS )"),
   ("ke", "known earthquake"),
   ("se", "suspected earthquake"),
   ("kr", "known rockburst"),
   ("sr", "suspected rockburst"),
   ("ki", "known induced event"),
   ("si", "suspected induced event"),
   ("km", "known mine expl."),
   ("sm", "suspected mine expl."),
   ("kh", "known chemical expl. ( Not standard IMS )"),
   ("sh", "suspected chemical expl. ( Not standard IMS )"),
   ("kx", "known experimental expl."),
   ("sx", "suspected experimental expl."),
   ("kn", "known nuclear expl."),
   ("sn", "suspected nuclear explosion"),
   ("ls", "landslide")]

/-- `UNKNOWN_EVENT_TYPE_DESCRIPTION`. -/
def unknownEventTypeDescription : String := "unknown event type"

/-- `OriginBlockState._process_metadata`: the origin metadata dict, in the
source's evaluation order.  Unknown analysis-type or location-method codes
raise KeyError (plain dict indexing); unknown event types fall back to the
unknown description (`dict.get` with default). -/
def decodeMetadata (l : List Char) : Except PyErr (List (String × PyVal)) :=
  match optIntField l 67 70 with
  | .error e => .error e
  | .ok strike =>
  match optIntField l 83 87 with
  | .error e => .error e
  | .ok phases =>
  match optIntField l 88 92 with
  | .error e => .error e
  | .ok stations =>
  match optFloatField l 97 103 with
  | .error e => .error e
  | .ok dist1 =>
  match optFloatField l 104 110 with
  | .error e => .error e
  | .ok dist2 =>
  match pyIndex l 111 with
  | .error e => .error e
  | .ok c111 =>
  match (if isPySpace c111 then .ok .nil
    else match lookupA analysisTypes ⟨[c111]⟩ with
      | some v => .ok (.str v)
      | none => .error .keyErr : Except PyErr PyVal) with
  | .error e => .error e
  | .ok analysisType =>
  match pyIndex l 113 with
  | .error e => .error e
  | .ok c113 =>
  match (if isPySpace c113 then .ok .nil
    else match lookupA locationMethods ⟨[c113]⟩ with
      | some v => .ok (.str v)
      | none => .error .keyErr : Except PyErr PyVal) with
  | .error e => .error e
  | .ok locationMethod =>
    let et := sliceStrip l 115 117
    let eventType : PyVal :=
      if et = "" then .nil
      else .str ((lookupA eventTypes et).getD unknownEventTypeDescription)
    .ok [("strike", strike), ("phases", phases), ("stations", stations),
         ("distance_to_closest_station", dist1),
         ("distance_to_furthest_station", dist2),
         ("analysis_type", analysisType), ("location_method", locationMethod),
         ("event_type", eventType)]

/-- The decoded fields of a fixed-width measure line. -/
structure MeasureData where
  scale : String
  value : PyFloat
  stdErr : PyVal
  stations : PyVal
  agencyName : String
  originKey : String
deriving DecidableEq, Repr

/-- The pure decoding part of `MeasureBlockState.process_line`: scale,
min/max indicator (any non-blank value fails the `assert`, raising
AssertionError), magnitude value, optional standard error, optional
station count, agency code and origin reference. -/
def decodeMeasureData (l : List Char) : Except PyErr MeasureData :=
  let scale := sliceStrip l 0 5
  match pyIndex l 5 with
  | .error e => .error e
  | .ok c5 =>
  if !isPySpace c5 then .error .assertionErr
  else
  match pyFloat ⟨pySlice l 6 11⟩ with
  | .error e => .error e
  | .ok value =>
  match optFloatField l 11 14 with
  | .error e => .error e
  | .ok stdErr =>
  match optIntField l 15 19 with
  | .error e => .error e
  | .ok stations =>
    .ok ⟨scale, value, stdErr, stations, sliceStrip l 19 29, sliceStrip l 30 38⟩

/-- `MeasureBlockState._save_measure`: resolve the agency through the
context map — queried with the literal key `"agency_name"`, with the
eagerly evaluated find-or-create of the decoded agency code as default —
resolve the origin through the context origin map (KeyError when absent),
then find-or-create the magnitude measure. -/
def saveMeasure (ctx : Ctx) (db : Db) (ev es : ℕ)
    (agencyName originKey scale : String) (value stdErr : PyVal) :
    Db × Except PyErr Bool :=
  match getOrCreate db (.agency agencyName es) [] with
  | .error e => (db, .error e)
  | .ok (agId, _, db1) =>
    let agency := (lookupA ctx.agencies "agency_name").getD (.ref agId)
    match lookupA ctx.origins originKey with
    | none => (db1, .error .keyErr)
    | some orig =>
      match getOrCreate db1 (.measure ev orig agency scale)
          [("value", value), ("standard_error", stdErr)] with
      | .error e => (db1, .error e)
      | .ok (_, created, db2) => (db2, .ok created)

/-- `StartState.process_line`: find-or-create the event source named by
the whole line and store it in the state's `eventsource` field. -/
def processStart (m : Machine) (db : Db) (l : List Char) :
    Machine × Db × Except PyErr Counts :=
  match getOrCreate db (.eventSource ⟨l⟩) [] with
  | .error e => (m, db, .error e)
  | .ok (id, created, db1) =>
    ({ m with startES := some id }, db1, .ok ⟨if created then 1 else 0, 0, 0, 0, 0⟩)

/-- `EventState.process_line` and `_save_event`: re-match the event
pattern (`groupdict` on a failed match raises AttributeError),
find-or-create the event, update its name when it differs. -/
def processEvent (m : Machine) (db : Db) (l : List Char) (es : ℕ) :
    Machine × Db × Except PyErr Counts :=
  match eventMatch l with
  | none => (m, db, .error .attrErr)
  | some (sk, nm) =>
    match getOrCreate db (.event sk es) [] with
    | .error e => (m, db, .error e)
    | .ok (id, created, db1) =>
      let db2 := if dbGetName db1 id ≠ .str nm then dbSetName db1 id nm else db1
      ({ m with cur := .eventSt es (some id) }, db2,
       .ok ⟨0, if created then 1 else 0, 0, 0, 0⟩)

/-- `OriginBlockState.process_line`: `_process_agency` (find-or-create the
agency and store the `(agency, created)` tuple in the context map), then
`_process_origin` (decode the fields, find-or-create the origin — the
`created` flag is discarded and the method returns `True` — and store the
origin in the context map), then `_process_metadata`. -/
def processOriginBlockLine (m : Machine) (db : Db) (l : List Char) (ev es : ℕ) :
    Machine × Db × Except PyErr Counts :=
  let author := sliceStrip l 118 127
  match getOrCreate db (.agency author es) [] with
  | .error e => (m, db, .error e)
  | .ok (agId, agCreated, db1) =>
    let m1 := { m with
      ctx := { m.ctx with
        agencies := setA m.ctx.agencies author (.pair (.ref agId) (.bool agCreated)) } }
    match decodeOriginData l with
    | .error e => (m1, db1, .error e)
    | .ok od =>
      match getOrCreate db1 (.origin od.sourceKey es) od.data with
      | .error e => (m1, db1, .error e)
      | .ok (orId, _, db2) =>
        let m2 := { m1 with
          ctx := { m1.ctx with origins := setA m1.ctx.origins od.sourceKey orId } }
        match decodeMetadata l with
        | .error e => (m2, db2, .error e)
        | .ok meta =>
          ({ m2 with cur := .originBlockSt ev es (some meta) }, db2,
           .ok ⟨0, 0, if agCreated then 1 else 0, 1, 0⟩)

/-- `MeasureBlockState.process_line`: decode the fixed-width fields, save
the measure, then store the station count into the shared metadata dict
(`None` metadata raises TypeError). -/
def processMeasureBlockLine (m : Machine) (db : Db) (l : List Char) (ev es : ℕ)
    (md : Option (List (String × PyVal))) : Machine × Db × Except PyErr Counts :=
  match decodeMeasureData l with
  | .error e => (m, db, .error e)
  | .ok d =>
    match saveMeasure m.ctx db ev es d.agencyName d.originKey d.scale
        (.num d.value) d.stdErr with
    | (db1, .error e) => (m, db1, .error e)
    | (db1, .ok created) =>
      match md with
      | none => (m, db1, .error .typeErr)
      | some meta =>
        ({ m with cur := .measureBlockSt ev es (some (setA meta "stations" d.stations)) },
         db1, .ok ⟨0, 0, 0, 0, if created then 1 else 0⟩)

/-- `MeasureUKScaleBlockState.process_line`: re-match the unknown-scale
pattern (AttributeError on failure), fix the scale to the sentinel `Muk`,
and save the measure with the captured substrings passed through as
strings (no numeric conversion is applied). -/
def processMeasureUKLine (m : Machine) (db : Db) (l : List Char) (ev es : ℕ)
    (md : Option (List (String × PyVal))) : Machine × Db × Except PyErr Counts :=
  match ukMatch l with
  | none => (m, db, .error .attrErr)
  | some g =>
    match saveMeasure m.ctx db ev es g.agency g.origin "Muk" (.str g.val)
        (match g.error with | some s => .str s | none => .nil) with
    | (db1, .error e) => (m, db1, .error e)
    | (db1, .ok created) =>
      match md with
      | none => (m, db1, .error .typeErr)
      | some meta =>
        ({ m with cur := .measureUKSt ev es (some (setA meta "stations"
            (match g.stations with | some s => .str s | none => .nil))) },
         db1, .ok ⟨0, 0, 0, 0, if created then 1 else 0⟩)

/-- Dispatch of `process_line` over the current (already transitioned)
state; the header states inherit the no-op `BaseState.process_line`. -/
def processLine (m : Machine) (db : Db) (l : List Char) :
    Machine × Db × Except PyErr Counts :=
  match m.cur with
  | .start => processStart m db l
  | .eventSt es _ => processEvent m db l es
  | .originHeaderSt _ _ => (m, db, .ok Counts.zero)
  | .measureHeaderSt _ _ _ => (m, db, .ok Counts.zero)
  | .originBlockSt ev es _ => processOriginBlockLine m db l ev es
  | .measureBlockSt ev es md => processMeasureBlockLine m db l ev es md
  | .measureUKSt ev es md => processMeasureUKLine m db l ev es md

/-- Outcome of processing one input line inside `Importer.store`:
continue with updated state, break on `STOP`, raise `ParsingFailure`
(IntegrityError path), or let another exception escape. -/
inductive StepOut where
  | cont (m : Machine) (db : Db) (sm : Summary)
  | halt (m : Machine) (db : Db) (sm : Summary)
  | fatalParse (n : ℕ) (db : Db)
  | fatalErr (e : PyErr) (db : Db)
deriving DecidableEq, Repr

/-- The body of the line loop of `Importer.store`: strip, classify, skip
comments, break on stop, attempt the transition and the line processing;
IntegrityError rolls back and raises `ParsingFailure`; UnexpectedLine and
ValueError take the junk-tolerance or block-recovery path (the recovery
issues a rollback via `_parsing_error` and re-installs `self._initial`);
any other exception escapes the loop. -/
def storeStep (aj : Bool) (n : ℕ) (rawLine : String) (m : Machine) (db : Db)
    (sm : Summary) : StepOut :=
  let line := pyStrip rawLine
  let lt := detectLineType line (isStartM m)
  if lt = .comment then .cont m db sm
  else if lt = .stop then .halt m db sm
  else
    match getNextState m.startES m.cur lt with
    | none =>
      if isStartM m = true ∧ lt = .junk ∧ aj = true then .cont m db sm
      else .cont { m with cur := .start } (rollbackDb db) (sm.addError n)
    | some next =>
      match processLine { m with cur := next } db line.toList with
      | (m2, db2, .ok out) => .cont m2 db2 (sm.addCounts out)
      | (_, db2, .error .integrityErr) => .fatalParse n (rollbackDb db2)
      | (m2, db2, .error .valueErr) =>
        if isStartM m2 = true ∧ lt = .junk ∧ aj = true then .cont m2 db2 sm
        else .cont { m2 with cur := .start } (rollbackDb db2) (sm.addError n)
      | (_, db2, .error e) => .fatalErr e db2

/-- Result of `Importer.store`: the returned Summary with the final
database and machine, a raised `ParsingFailure` (with the offending line
number), or an uncaught exception. -/
inductive StoreResult where
  | ok (sm : Summary) (db : Db) (m : Machine)
  | parsingFailure (n : ℕ) (db : Db)
  | uncaught (e : PyErr) (db : Db)
deriving DecidableEq, Repr

/-- The line loop of `Importer.store` over numbered lines; after the input
is exhausted (or `STOP` was seen) the session is committed once and the
summary returned. -/
def storeLoop (aj : Bool) : List (ℕ × String) → Machine → Db → Summary → StoreResult
  | [], m, db, sm => .ok sm (commitDb db) m
  | (n, l) :: rest, m, db, sm =>
    match storeStep aj n l m db sm with
    | .cont m2 db2 sm2 => storeLoop aj rest m2 db2 sm2
    | .halt m2 db2 sm2 => .ok sm2 (commitDb db2) m2
    | .fatalParse k db2 => .parsingFailure k db2
    | .fatalErr e db2 => .uncaught e db2

/-- `enumerate(self._file_stream, start=1)`. -/
def enumerate1 (lines : List String) : List (ℕ × String) :=
  lines.enum.map (fun p => (p.1 + 1, p.2))

/-- `Importer.store` on explicit machine, database and summary. -/
def store (lines : List String) (aj : Bool) (m : Machine) (db : Db)
    (sm : Summary) : StoreResult :=
  storeLoop aj (enumerate1 lines) m db sm

/-- The machine of a freshly constructed importer (`Importer.__init__`):
the initial `StartState` with no event source, empty context maps. -/
def initMachine : Machine := ⟨none, .start, ⟨[], []⟩⟩

/-- A catalogue database with no rows and a given fault oracle. -/
def emptyDb (failOps : List ℕ) : Db := ⟨[], [], [], 0, failOps, 0, 0⟩

/-- A full `Importer(stream, cat).store(allow_junk)` run on a fresh
importer and an empty catalogue. -/
def runStore (lines : List String) (aj : Bool) (failOps : List ℕ) : StoreResult :=
  store lines aj initMachine (emptyDb failOps) Summary.empty

/-- The catalogue header line. -/
def catalogueHeaderLine : String := "ISC Bulletin"

/-- A concrete event header line (source key `ev01`, name `First`). -/
def eventLine1 : String := "Event ev01 First"

/-- A concrete event header line for a second event block. -/
def eventLine2 : String := "Event ev02 Second"

/-- A concrete origin block header (the column titles separated by single
spaces). -/
def originHeaderLine : String :=
  "Date Time Err RMS Latitude Longitude Smaj Smin Az Depth Err Ndef Nsta Gap mdist Mdist Qual Author OrigID"

/-- A concrete measure block header. -/
def measureHeaderLine : String := "Magnitude Err Nsta Author OrigID"

/-- A concrete 136-column origin line: origin time 2009-08-19 01:02:03,
position (12.5, 100.25), author `GCMT`, origin id `OID00001`, every
optional field blank. -/
def originLine1 : String :=
  "2009/08/19 01:02:03                  12.5000  100.2500                                                                GCMT      OID00001"

/-- A concrete 38-column measure line: scale `mb`, blank min/max column,
value 4.50, blank error and station fields, agency `GCMT`, origin
reference `OID00001`. -/
def measureLine1 : String := "mb     4.50        GCMT       OID00001"

/-- A line that classifies as junk in every state. -/
def badLine : String := "???"

/-- The measure line with a non-blank min/max indicator column
(`x` at index 5). -/
def minmaxBadLine : String := "mb   x 4.50        GCMT       OID00001"

/-- A measure line referencing an origin id (`OID99999`) that no origin
block established in the context. -/
def badRefMeasureLine : String := "mb     4.50        GCMT       OID99999"

/-- The recovery scenario of claim C1: a valid single-event block, one
invalid line, and a second valid single-event block. -/
def c1Lines : List String :=
  [catalogueHeaderLine, eventLine1, originHeaderLine, originLine1,
   measureHeaderLine, measureLine1, badLine, catalogueHeaderLine, eventLine2,
   originHeaderLine, originLine1, measureHeaderLine, measureLine1]

/-- The first block of the recovery scenario followed by the invalid
line only. -/
def c1PrefixLines : List String :=
  [catalogueHeaderLine, eventLine1, originHeaderLine, originLine1,
   measureHeaderLine, measureLine1, badLine]

/-- The recorded parse errors of a run that returned a Summary. -/
def okErrors : StoreResult → List ℕ
  | .ok sm _ _ => sm.errors
  | _ => []

/-- The entity counts of a run that returned a Summary. -/
def okCounts : StoreResult → Counts
  | .ok sm _ _ => sm.counts
  | _ => Counts.zero

/-- The committed rows after a run that returned a Summary. -/
def okCommitted : StoreResult → List Record
  | .ok _ db _ => db.committed
  | _ => []

/-- The final machine of a run that returned a Summary. -/
def okMachine : StoreResult → Option Machine
  | .ok _ _ m => some m
  | _ => none

/-- The exception of a run aborted by an uncaught (non-ParsingFailure)
exception. -/
def uncaughtErr : StoreResult → Option PyErr
  | .uncaught e _ => some e
  | _ => none

/-- Count delta of a `process_line` result. -/
def plCounts (r : Machine × Db × Except PyErr Counts) : Except PyErr Counts :=
  r.2.2

/-- Machine of a `process_line` result. -/
def plMachine (r : Machine × Db × Except PyErr Counts) : Machine :=
  r.1

/-- Natural keys of the rows added to the session by a `process_line`
result. -/
def plPendingKeys (r : Machine × Db × Except PyErr Counts) : List NatKey :=
  r.2.1.pending.map Record.key

/-- Rows pending in the session after a `process_line` result. -/
def plPending (r : Machine × Db × Except PyErr Counts) : List Record :=
  r.2.1.pending

/-- A catalogue that already contains the event source and the origin
(natural key `OID00001` under event source 0) decoded from
`originLine1`. -/
def c2Db : Db :=
  ⟨[⟨0, .eventSource "ISC Bulletin", []⟩, ⟨3, .origin "OID00001" 0, []⟩],
   [], [], 10, [], 0, 0⟩

/-- A machine positioned in the origin-block state for claim C2. -/
def c2Machine : Machine := ⟨some 0, .originBlockSt 1 0 none, ⟨[], []⟩⟩

/-- The unknown-scale measure line of the specification example. -/
def ukLine : String := "5.20 0.30 12 XYZ;ABC OID001"

/-- A machine positioned in the unknown-scale measure state, with an
origin `OID001` established in the context, for claim C8. -/
def c8Machine : Machine := ⟨some 0, .measureUKSt 1 0 (some []), ⟨[], [("OID001", 7)]⟩⟩

/-- The shape described by the comment rule of the classifier: the line
opens with `(`, the next character is not `)`, and after at least one
further non-newline character a closing `)` occurs (the compiled pattern
`\([^\)].+\)` as a prefix match). -/
def CommentShape (l : List Char) : Prop :=
  ∃ c mid rest, l = '(' :: c :: (mid ++ ')' :: rest) ∧ c ≠ ')' ∧ mid ≠ [] ∧
    ∀ x ∈ mid, x ≠ '\n'

/-- Unfolding one continuing step of the store loop. -/
theorem storeLoop_cons_cont {aj : Bool} {n : ℕ} {l : String}
    {rest : List (ℕ × String)} {m m2 : Machine} {db db2 : Db} {sm sm2 : Summary}
    (h : storeStep aj n l m db sm = .cont m2 db2 sm2) :
    storeLoop aj ((n, l) :: rest) m db sm = storeLoop aj rest m2 db2 sm2 := by
  simp [storeLoop, h]

/-- Lookup after a dict assignment: the assigned key shadows, other keys
are unaffected. -/
theorem lookupA_setA {α : Type} (xs : List (String × α)) (k key : String) (v : α) :
    lookupA (setA xs k v) key = if k = key then some v else lookupA xs key := by
  induction xs with
  | nil => simp [setA, lookupA]
  | cons p rest ih =>
    obtain ⟨k2, v2⟩ := p
    by_cases h1 : k2 = k
    · subst h1
      by_cases h2 : k2 = key <;> simp [setA, lookupA, h2]
    · by_cases h2 : k2 = key
      · subst h2
        have hne : ¬ k = k2 := fun hk => h1 hk.symm
        simp [setA, lookupA, h1, hne]
      · simp [setA, lookupA, h1, h2, ih]

/-- The tail scanner of the comment pattern accepts exactly the lists that
split as `mid ++ ')' :: rest` with no newline inside `mid`. -/
theorem closeScan_iff (cs : List Char) :
    closeScan cs = true ↔
      ∃ mid rest, cs = mid ++ ')' :: rest ∧ ∀ x ∈ mid, x ≠ '\n' := by
  induction cs with
  | nil =>
    simp only [closeScan, Bool.false_eq_true, false_iff]
    rintro ⟨mid, rest, heq, -⟩
    exact absurd heq (by simp)
  | cons c cs ih =>
    simp only [closeScan, Bool.or_eq_true, Bool.and_eq_true, decide_eq_true_eq, ih]
    constructor
    · rintro (hc | ⟨hc, mid, rest, rfl, hmid⟩)
      · exact ⟨[], cs, by rw [hc]; rfl, by simp⟩
      · refine ⟨c :: mid, rest, rfl, ?_⟩
        intro x hx
        rcases List.mem_cons.mp hx with h | h
        · rw [h]; exact hc
        · exact hmid x h
    · rintro ⟨mid, rest, heq, hmid⟩
      cases mid with
      | nil =>
        left
        exact (List.cons.injEq _ _ _ _ ▸ heq).1
      | cons m0 mrest =>
        right
        have h1 := (List.cons.injEq _ _ _ _ ▸ heq).1
        have h2 := (List.cons.injEq _ _ _ _ ▸ heq).2
        subst h1
        refine ⟨hmid c (by simp), mrest, rest, h2, fun x hx => hmid x (by simp [hx])⟩

/-- The compiled comment matcher accepts exactly the lines of
`CommentShape`. -/
theorem commentMatch_iff (l : List Char) :
    commentMatch l = true ↔ CommentShape l := by
  cases l with
  | nil =>
    simp only [commentMatch, Bool.false_eq_true, false_iff, CommentShape]
    rintro ⟨c, mid, rest, heq, -⟩
    exact absurd heq (by simp)
  | cons a l1 =>
    cases l1 with
    | nil =>
      simp only [commentMatch, Bool.false_eq_true, false_iff, CommentShape]
      rintro ⟨c, mid, rest, heq, -⟩
      exact absurd heq (by simp)
    | cons b l2 =>
      cases l2 with
      | nil =>
        simp only [commentMatch, Bool.false_eq_true, false_iff, CommentShape]
        rintro ⟨c, mid, rest, heq, -, hne, -⟩
        cases mid with
        | nil => exact hne rfl
        | cons m0 mrest => exact absurd heq (by simp)
      | cons c2 cs =>
        simp only [commentMatch, Bool.and_eq_true, decide_eq_true_eq, CommentShape]
        constructor
        · rintro ⟨ha, hb, hc2, hscan⟩
          obtain ⟨mid, rest, rfl, hmid⟩ := (closeScan_iff cs).mp hscan
          refine ⟨b, c2 :: mid, rest, by rw [ha]; rfl, hb, by simp, ?_⟩
          intro x hx
          rcases List.mem_cons.mp hx with h | h
          · rw [h]; exact hc2
          · exact hmid x h
        · rintro ⟨c, mid, rest, heq, hc, hmidne, hmid⟩
          have h1 := (List.cons.injEq _ _ _ _ ▸ heq).1
          have h2 := (List.cons.injEq _ _ _ _ ▸ heq).2
          have h3 := (List.cons.injEq _ _ _ _ ▸ h2).1
          have h4 := (List.cons.injEq _ _ _ _ ▸ h2).2
          subst h3
          cases mid with
          | nil => exact absurd rfl hmidne
          | cons m0 mrest =>
            have h5 := (List.cons.injEq _ _ _ _ ▸ h4).1
            have h6 := (List.cons.injEq _ _ _ _ ▸ h4).2
            subst h5
            exact ⟨h1, hc, hmid c2 (by simp), (closeScan_iff cs).mpr
              ⟨mrest, rest, h6, fun x hx => hmid x (by simp [hx])⟩⟩

/-- C7 (counterexample): the line `"(ab"` is not one of the two exact
strings, it opens with `(` whose second character is not `)`, yet the
classifier does not classify it as a comment (the compiled pattern also
requires a later closing parenthesis), in either is-start state. -/
theorem C7_counterexample :
    ("(ab" ≠ "ISC Bulletin") ∧ ("(ab" ≠ "STOP") ∧
    "(ab".toList.take 2 = ['(', 'a'] ∧
    detectLineType "(ab" true = .junk ∧ detectLineType "(ab" false = .junk := by
  decide

/-- C7 (amended): for every line other than the exact strings
`"ISC Bulletin"` and `"STOP"`, the classifier returns comment if and only
if the line is blank/whitespace-only or has the comment shape — it opens
with `(` not followed by `)` and, after at least one further non-newline
character, contains a closing `)`. -/
theorem C7_comment_iff (line : String) (b : Bool)
    (h1 : line ≠ "ISC Bulletin") (h2 : line ≠ "STOP") :
    detectLineType line b = .comment ↔
      (CommentShape line.toList ∨ (stripChars line.toList).isEmpty = true) := by
  unfold detectLineType
  simp only [h1, h2, if_false]
  by_cases hc : (commentMatch line.toList || (stripChars line.toList).isEmpty) = true
  · simp only [hc, if_true, true_iff]
    rcases Bool.or_eq_true_iff.mp hc with h | h
    · exact Or.inl ((commentMatch_iff _).mp h)
    · exact Or.inr h
  · simp only [hc, if_false]
    constructor
    · intro h
      repeat' split at h
      all_goals simp_all
    · rintro (h | h)
      · exact absurd (Bool.or_eq_true_iff.mpr (Or.inl ((commentMatch_iff _).mpr h))) hc
      · exact absurd (Bool.or_eq_true_iff.mpr (Or.inr h)) hc

/-- C7 (witness): the amended equivalence applied to the concrete comment
line `"(hello world)"`. -/
theorem C7_comment_iff_witness :
    detectLineType "(hello world)" true = .comment ↔
      (CommentShape "(hello world)".toList ∨
        (stripChars "(hello world)".toList).isEmpty = true) :=
  C7_comment_iff "(hello world)" true (by decide) (by decide)

/-- C6: a junk-classified line seen while the current state is the start
state (no event source established yet) is skipped without any effect when
junk tolerance is on, and is recorded as a parse error through the same
recovery path as an invalid transition (rollback, error appended, state
re-set to the initial state) when junk tolerance is off. -/
theorem C6_junk_tolerance (n : ℕ) (l : String) (rest : List (ℕ × String))
    (m : Machine) (db : Db) (sm : Summary)
    (hcur : m.cur = .start) (hes : m.startES = none)
    (hjunk : detectLineType (pyStrip l) true = .junk) :
    storeLoop true ((n, l) :: rest) m db sm = storeLoop true rest m db sm ∧
    storeLoop false ((n, l) :: rest) m db sm =
      storeLoop false rest { m with cur := .start } (rollbackDb db)
        (sm.addError n) := by
  have hstart : isStartM m = true := by
    simp [isStartM, hcur, hes]
  constructor
  · refine storeLoop_cons_cont ?_
    simp [storeStep, hstart, hjunk, hcur, hes, getNextState]
  · refine storeLoop_cons_cont ?_
    simp [storeStep, hstart, hjunk, hcur, hes, getNextState]

/-- C6 (witness): the junk line `"???"` processed by a fresh importer is
skipped with junk tolerance on and recorded with junk tolerance off. -/
theorem C6_junk_tolerance_witness :
    storeLoop true [(1, "???")] initMachine (emptyDb []) Summary.empty =
      storeLoop true [] initMachine (emptyDb []) Summary.empty ∧
    storeLoop false [(1, "???")] initMachine (emptyDb []) Summary.empty =
      storeLoop false [] { initMachine with cur := .start }
        (rollbackDb (emptyDb [])) (Summary.empty.addError 1) :=
  C6_junk_tolerance 1 "???" [] initMachine (emptyDb []) Summary.empty
    (by decide) (by decide) (by decide)

/-- C2 (counterexample): an origin-block line whose origin natural key
(`OID00001` under event source 0) already exists in the catalogue is
processed with an origin summary bucket of 1 even though no origin was
newly created (the only row added to the session is the agency). -/
theorem C2_counterexample :
    c2Db.committed.map Record.key =
      [.eventSource "ISC Bulletin", .origin "OID00001" 0] ∧
    plCounts (processOriginBlockLine c2Machine c2Db originLine1.toList 1 0) =
      .ok ⟨0, 0, 1, 1, 0⟩ ∧
    plPendingKeys (processOriginBlockLine c2Machine c2Db originLine1.toList 1 0) =
      [.agency "GCMT" 0] := by
  decide

/-- C2 (amended): every successfully processed origin-block line reports
an origin bucket of exactly 1, whether or not the origin already existed —
`_process_origin` discards the created flag of `get_or_create` and returns
`True` unconditionally. -/
theorem C2_origin_always_counted (m m2 : Machine) (db db2 : Db)
    (l : List Char) (ev es : ℕ) (c : Counts)
    (h : processOriginBlockLine m db l ev es = (m2, db2, .ok c)) :
    c.origins = 1 ∧ c.eventSources = 0 ∧ c.events = 0 ∧ c.measures = 0 := by
  unfold processOriginBlockLine at h
  simp only [] at h
  rcases hget : getOrCreate db (NatKey.agency (sliceStrip l 118 127) es) []
      with e | ⟨agId, agCreated, db1⟩ <;> rw [hget] at h
  · simp at h
  · repeat' split at h
    all_goals
      rcases h with ⟨-, -, rfl⟩
    all_goals exact ⟨rfl, rfl, rfl, rfl⟩

/-- C2 (witness): the amended statement applied to the concrete
pre-populated catalogue of the counterexample. -/
theorem C2_origin_always_counted_witness :
    (⟨0, 0, 1, 1, 0⟩ : Counts).origins = 1 ∧
    (⟨0, 0, 1, 1, 0⟩ : Counts).eventSources = 0 ∧
    (⟨0, 0, 1, 1, 0⟩ : Counts).events = 0 ∧
    (⟨0, 0, 1, 1, 0⟩ : Counts).measures = 0 :=
  C2_origin_always_counted c2Machine
    (plMachine (processOriginBlockLine c2Machine c2Db originLine1.toList 1 0))
    c2Db (processOriginBlockLine c2Machine c2Db originLine1.toList 1 0).2.1
    originLine1.toList 1 0 ⟨0, 0, 1, 1, 0⟩ (by decide)

/-- C8 (counterexample): for the specification's unknown-scale example
line, the value and standard error stored with the created measure and
the station count stored into the metadata are the captured substrings
`"5.20"`, `"0.30"` and `"12"` — Python string values, not the numbers the
claim describes. -/
theorem C8_counterexample :
    (plPending (processMeasureUKLine c8Machine (emptyDb []) ukLine.toList 1 0
        (some []))).map Record.data =
      [[], [("value", PyVal.str "5.20"), ("standard_error", PyVal.str "0.30")]] ∧
    (plMachine (processMeasureUKLine c8Machine (emptyDb []) ukLine.toList 1 0
        (some []))).cur = .measureUKSt 1 0 (some [("stations", .str "12")]) ∧
    PyVal.str "5.20" ≠ PyVal.num ⟨520, 2⟩ ∧
    PyVal.str "12" ≠ PyVal.int 12 := by
  decide

/-- C8 (amended): the line `"5.20 0.30 12 XYZ;ABC OID001"` processed in
the unknown-scale measure state decodes to a measure with scale the
sentinel code `Muk`, agency code `XYZ;ABC` (resolved to a fresh agency
row), origin reference `OID001` (resolved through the context map), value
the matched text `"5.20"`, standard error the matched text `"0.30"`, and
station count the matched text `"12"` stored into the metadata — the
captured groups are passed through without numeric conversion. -/
theorem C8_uk_decode :
    processMeasureUKLine c8Machine (emptyDb []) ukLine.toList 1 0 (some []) =
      (⟨some 0, .measureUKSt 1 0 (some [("stations", .str "12")]),
          ⟨[], [("OID001", 7)]⟩⟩,
       ⟨[], [⟨0, .agency "XYZ;ABC" 0, []⟩,
             ⟨1, .measure 1 7 (.ref 0) "Muk",
              [("value", .str "5.20"), ("standard_error", .str "0.30")]⟩],
        [], 2, [], 2, 0⟩,
       .ok ⟨0, 0, 0, 0, 1⟩) := by
  decide

/-- C9: in `_save_measure` the agency attached to a measure is resolved by
querying the per-run agencies map with the literal string `"agency_name"`
(not the decoded agency code), and the find-or-create default is evaluated
unconditionally.  First conjunct: as long as the map has no entry under
the literal key, its contents are irrelevant — two contexts with the same
origin map produce identical results.  Second conjunct: even when the
literal key is present (so the map value `w`, not the decoded code, keys
the measure), a row for the decoded agency code is still find-or-created
in the store. -/
theorem C9_agency_resolution (db : Db) (ev es : ℕ)
    (agName orKey scale : String) (v se : PyVal) :
    (∀ ctx1 ctx2 : Ctx, ctx1.origins = ctx2.origins →
      lookupA ctx1.agencies "agency_name" = none →
      lookupA ctx2.agencies "agency_name" = none →
      saveMeasure ctx1 db ev es agName orKey scale v se =
        saveMeasure ctx2 db ev es agName orKey scale v se) ∧
    (∀ (ctx : Ctx) (w : PyVal) (o : ℕ),
      lookupA ctx.agencies "agency_name" = some w →
      lookupA ctx.origins orKey = some o →
      db.failOps = [] →
      (∀ r ∈ db.committed ++ db.pending, r.key ≠ .agency agName es) →
      (∀ r ∈ db.committed ++ db.pending, r.key ≠ .measure ev o w scale) →
      (saveMeasure ctx db ev es agName orKey scale v se).1.pending.map Record.key =
        db.pending.map Record.key ++ [.agency agName es, .measure ev o w scale]) := by
  constructor
  · intro ctx1 ctx2 hor h1 h2
    cases hg : getOrCreate db (.agency agName es) [] with
    | error e => simp only [saveMeasure, hg]
    | ok t =>
      obtain ⟨agId, cr, db1⟩ := t
      simp only [saveMeasure, hg, h1, h2, hor]
  · intro ctx w o hw ho hfail hag hme
    have hfind1 : (db.committed ++ db.pending).find?
        (fun r => decide (r.key = .agency agName es)) = none := by
      rw [List.find?_eq_none]
      intro r hr
      simp [hag r hr]
    have hg1 : getOrCreate db (.agency agName es) [] =
        .ok (db.nextId, true,
          { db with
              opCount := db.opCount + 1,
              pending := db.pending ++ [⟨db.nextId, .agency agName es, []⟩],
              nextId := db.nextId + 1 }) := by
      unfold getOrCreate
      simp only [hfail]
      simp [hfind1]
    have hfind2 : ((db.committed ++
        (db.pending ++ ([⟨db.nextId, .agency agName es, []⟩] : List Record))).find?
        (fun r => decide (r.key = .measure ev o w scale))) = none := by
      rw [List.find?_eq_none]
      intro r hr
      rcases List.mem_append.mp hr with hr1 | hr2
      · simp [hme r (List.mem_append.mpr (Or.inl hr1))]
      · rcases List.mem_append.mp hr2 with hr3 | hr4
        · simp [hme r (List.mem_append.mpr (Or.inr hr3))]
        · rcases List.mem_singleton.mp hr4 with rfl
          simp
    have hg2 : getOrCreate
        { db with
            opCount := db.opCount + 1,
            pending := db.pending ++ [⟨db.nextId, .agency agName es, []⟩],
            nextId := db.nextId + 1 }
        (.measure ev o w scale) [("value", v), ("standard_error", se)] =
        .ok (db.nextId + 1, true,
          { db with
              opCount := db.opCount + 1 + 1,
              pending := db.pending ++ [⟨db.nextId, .agency agName es, []⟩] ++
                [⟨db.nextId + 1, .measure ev o w scale,
                  [("value", v), ("standard_error", se)]⟩],
              nextId := db.nextId + 1 + 1 }) := by
      unfold getOrCreate
      simp only [hfail]
      simp [hfind2]
    simp only [saveMeasure, hg1, hw, Option.getD_some, ho, hg2]
    simp

/-- C9 (witness): the two conjuncts applied to concrete contexts — an
unrelated agencies entry does not change the result, and with a literal
`"agency_name"` entry present the decoded agency row is still created
while the map value keys the measure. -/
theorem C9_agency_resolution_witness :
    (saveMeasure ⟨[("OTHER", .ref 9)], [("O1", 3)]⟩ (emptyDb []) 1 0
        "XYZ" "O1" "mb" (.num ⟨45, 1⟩) .nil =
      saveMeasure ⟨[], [("O1", 3)]⟩ (emptyDb []) 1 0
        "XYZ" "O1" "mb" (.num ⟨45, 1⟩) .nil) ∧
    ((saveMeasure ⟨[("agency_name", .ref 42)], [("O1", 3)]⟩ (emptyDb []) 1 0
        "XYZ" "O1" "mb" (.num ⟨45, 1⟩) .nil).1.pending.map Record.key =
      (emptyDb []).pending.map Record.key ++
        [.agency "XYZ" 0, .measure 1 3 (.ref 42) "mb"]) :=
  ⟨(C9_agency_resolution (emptyDb []) 1 0 "XYZ" "O1" "mb" (.num ⟨45, 1⟩) .nil).1
      ⟨[("OTHER", .ref 9)], [("O1", 3)]⟩ ⟨[], [("O1", 3)]⟩ rfl (by decide) (by decide),
   (C9_agency_resolution (emptyDb []) 1 0 "XYZ" "O1" "mb" (.num ⟨45, 1⟩) .nil).2
      ⟨[("agency_name", .ref 42)], [("O1", 3)]⟩ (.ref 42) 3 (by decide) (by decide)
      rfl (by decide) (by decide)⟩

/-- C4 (counterexample): a run whose sixth line is a measure line with a
non-blank min/max indicator column does not return a Summary with a
recorded parse error — the `assert` raises an AssertionError that is not
caught by the recovery handler and escapes `store`. -/
theorem C4_counterexample :
    uncaughtErr (runStore [catalogueHeaderLine, eventLine1, originHeaderLine,
      originLine1, measureHeaderLine, minmaxBadLine] true []) =
      some .assertionErr ∧
    okMachine (runStore [catalogueHeaderLine, eventLine1, originHeaderLine,
      originLine1, measureHeaderLine, minmaxBadLine] true []) = none := by
  decide

/-- C4 (amended): for every measure-block line whose min/max indicator
column (index 5) holds a non-whitespace character, processing the line
raises an AssertionError that escapes the orchestration loop: the run is
aborted with the database untouched, no parse error is recorded and no
Summary is returned. -/
theorem C4_minmax_assertion (aj : Bool) (n : ℕ) (l : String)
    (rest : List (ℕ × String)) (m : Machine) (db : Db) (sm : Summary)
    (ev es : ℕ) (md : Option (List (String × PyVal))) (c5 : Char)
    (hdet : detectLineType (pyStrip l) (isStartM m) = .measureBlock)
    (hnext : getNextState m.startES m.cur .measureBlock =
      some (.measureBlockSt ev es md))
    (hidx : pyIndex (pyStrip l).toList 5 = .ok c5)
    (hc5 : isPySpace c5 = false) :
    storeLoop aj ((n, l) :: rest) m db sm = .uncaught .assertionErr db := by
  have hd : decodeMeasureData (pyStrip l).toList = .error .assertionErr := by
    unfold decodeMeasureData
    rw [hidx]
    simp [hc5]
  have hd2 : decodeMeasureData (pyStrip l).data = .error .assertionErr := hd
  have hp : processLine { m with cur := .measureBlockSt ev es md } db
      (pyStrip l).toList =
      ({ m with cur := .measureBlockSt ev es md }, db, .error .assertionErr) := by
    simp [processLine, processMeasureBlockLine, hd, hd2]
  have hs : storeStep aj n l m db sm = .fatalErr .assertionErr db := by
    simp only [storeStep, hdet, hnext, hp]
    simp
  simp [storeLoop, hs]

/-- C4 (witness): the assertion theorem applied at the concrete measure
line carrying `x` in the min/max column, reached from the measure-header
state. -/
theorem C4_minmax_assertion_witness :
    storeLoop true [(6, minmaxBadLine)]
      ⟨some 0, .measureHeaderSt 1 0 (some []), ⟨[], [("OID00001", 3)]⟩⟩
      (emptyDb []) Summary.empty =
      .uncaught .assertionErr (emptyDb []) :=
  C4_minmax_assertion true 6 minmaxBadLine []
    ⟨some 0, .measureHeaderSt 1 0 (some []), ⟨[], [("OID00001", 3)]⟩⟩
    (emptyDb []) Summary.empty 1 0 (some []) 'x'
    (by decide) (by decide) (by decide) (by decide)

/-- C5 (counterexample): after the recovery at line 7 of the concrete
scenario (a valid block followed by an invalid line), the run ends in the
Start state but both context maps still hold the entries accumulated
before the recovery point — they are not cleared. -/
theorem C5_counterexample :
    okMachine (runStore c1PrefixLines true []) =
      some ⟨some 0, .start,
        ⟨[("GCMT", .pair (.ref 2) (.bool true))], [("OID00001", 3)]⟩⟩ := by
  decide

/-- C5 (amended): a block-level recovery resets only the parser state —
the retained initial Start state is re-installed (keeping its established
event source) and a parse error is appended — while the ParseContext maps
are carried over unchanged; they are initialised once per importer in
`__init__`, not at the start of `store` and not on recovery. -/
theorem C5_recovery_keeps_context (aj : Bool) (n : ℕ) (l : String)
    (rest : List (ℕ × String)) (m : Machine) (db : Db) (sm : Summary)
    (lt : LineType)
    (hdet : detectLineType (pyStrip l) (isStartM m) = lt)
    (hnc : lt ≠ .comment) (hns : lt ≠ .stop)
    (hnone : getNextState m.startES m.cur lt = none)
    (hnj : ¬(isStartM m = true ∧ lt = .junk ∧ aj = true)) :
    storeLoop aj ((n, l) :: rest) m db sm =
      storeLoop aj rest ⟨m.startES, .start, m.ctx⟩ (rollbackDb db)
        (sm.addError n) := by
  refine storeLoop_cons_cont ?_
  simp only [storeStep, hdet, hnone]
  simp [hnc, hns, hnj]

/-- C5 (witness): the recovery equation at a concrete invalid line seen in
the event state with non-empty context maps: the maps survive the
recovery. -/
theorem C5_recovery_keeps_context_witness :
    storeLoop true [(3, badLine)]
      ⟨some 0, .eventSt 0 none, ⟨[("A", .ref 1)], [("K", 2)]⟩⟩
      (emptyDb []) Summary.empty =
      storeLoop true [] ⟨some 0, .start, ⟨[("A", .ref 1)], [("K", 2)]⟩⟩
        (rollbackDb (emptyDb [])) (Summary.empty.addError 3) :=
  C5_recovery_keeps_context true 3 badLine []
    ⟨some 0, .eventSt 0 none, ⟨[("A", .ref 1)], [("K", 2)]⟩⟩
    (emptyDb []) Summary.empty .junk
    (by decide) (by decide) (by decide) (by decide) (by decide)

/-- `get_or_create` only adds pending rows: the committed rows and the
rollback counter are untouched. -/
theorem getOrCreate_frame (db : Db) (key : NatKey) (cr : List (String × PyVal))
    (id : ℕ) (c : Bool) (db2 : Db)
    (h : getOrCreate db key cr = .ok (id, c, db2)) :
    db2.committed = db.committed ∧ db2.rollbacks = db.rollbacks := by
  unfold getOrCreate at h
  split at h
  · simp at h
  · simp only [] at h
    split at h <;> simp only [Except.ok.injEq, Prod.mk.injEq] at h <;>
      obtain ⟨-, -, h3⟩ := h <;> subst h3 <;> exact ⟨rfl, rfl⟩

/-- `_save_measure` only adds pending rows. -/
theorem saveMeasure_frame (ctx : Ctx) (db : Db) (ev es : ℕ)
    (agName orKey scale : String) (v se : PyVal) (db2 : Db)
    (r : Except PyErr Bool)
    (h : saveMeasure ctx db ev es agName orKey scale v se = (db2, r)) :
    db2.committed = db.committed ∧ db2.rollbacks = db.rollbacks := by
  unfold saveMeasure at h
  simp only [] at h
  rcases hg1 : getOrCreate db (.agency agName es) [] with e | ⟨agId, cr1, db1⟩ <;>
    rw [hg1] at h <;> simp only [] at h
  · simp only [Prod.mk.injEq] at h
    obtain ⟨h1, -⟩ := h
    subst h1
    exact ⟨rfl, rfl⟩
  · have hf1 := getOrCreate_frame _ _ _ _ _ _ hg1
    rcases hlo : lookupA ctx.origins orKey with _ | o <;> rw [hlo] at h <;>
      simp only [] at h
    · simp only [Prod.mk.injEq] at h
      obtain ⟨h1, -⟩ := h
      subst h1
      exact hf1
    · rcases hg2 : getOrCreate db1
          (.measure ev o ((lookupA ctx.agencies "agency_name").getD (.ref agId))
            scale) [("value", v), ("standard_error", se)] with e2 | ⟨mid, cr2, db3⟩ <;>
        rw [hg2] at h
      · simp only [Prod.mk.injEq] at h
        obtain ⟨h1, -⟩ := h
        subst h1
        exact hf1
      · have hf2 := getOrCreate_frame _ _ _ _ _ _ hg2
        simp only [Prod.mk.injEq] at h
        obtain ⟨h1, -⟩ := h
        subst h1
        exact ⟨hf2.1.trans hf1.1, hf2.2.trans hf1.2⟩

/-- Every `process_line` path only adds pending rows and provisional
updates — committed rows and the rollback counter are untouched — and the
established event source of the initial state is never cleared (only
`StartState.process_line` writes it, and it writes an entity). -/
theorem processLine_frame (m : Machine) (db : Db) (l : List Char)
    (m2 : Machine) (db2 : Db) (r : Except PyErr Counts)
    (h : processLine m db l = (m2, db2, r)) :
    db2.committed = db.committed ∧ db2.rollbacks = db.rollbacks ∧
    (m2.startES = m.startES ∨ ∃ k, m2.startES = some k) := by
  unfold processLine at h
  cases hc : m.cur <;> rw [hc] at h
  case start =>
    unfold processStart at h
    rcases hg : getOrCreate db (.eventSource ⟨l⟩) [] with e | ⟨id, cr, db1⟩ <;>
      rw [hg] at h <;> simp only [Prod.mk.injEq] at h <;>
      obtain ⟨h1, h2, -⟩ := h <;> subst h1 <;> subst h2
    · exact ⟨rfl, rfl, Or.inl rfl⟩
    · have hf := getOrCreate_frame _ _ _ _ _ _ hg
      exact ⟨hf.1, hf.2, Or.inr ⟨id, rfl⟩⟩
  case eventSt es ev =>
    unfold processEvent at h
    rcases hem : eventMatch l with _ | ⟨sk, nm⟩ <;> rw [hem] at h <;>
      simp only [Prod.mk.injEq] at h
    · obtain ⟨h1, h2, -⟩ := h
      subst h1; subst h2
      exact ⟨rfl, rfl, Or.inl rfl⟩
    · rcases hg : getOrCreate db (.event sk es) [] with e | ⟨id, cr, db1⟩ <;>
        rw [hg] at h <;> simp only [Prod.mk.injEq] at h <;>
        obtain ⟨h1, h2, -⟩ := h <;> subst h1 <;> subst h2
      · exact ⟨rfl, rfl, Or.inl rfl⟩
      · have hf := getOrCreate_frame _ _ _ _ _ _ hg
        refine ⟨?_, ?_, Or.inl rfl⟩ <;> split <;>
          simp [dbSetName, hf.1, hf.2]
  case originHeaderSt ev es =>
    simp only [Prod.mk.injEq] at h
    obtain ⟨h1, h2, -⟩ := h
    subst h1; subst h2
    exact ⟨rfl, rfl, Or.inl rfl⟩
  case measureHeaderSt ev es md =>
    simp only [Prod.mk.injEq] at h
    obtain ⟨h1, h2, -⟩ := h
    subst h1; subst h2
    exact ⟨rfl, rfl, Or.inl rfl⟩
  case originBlockSt ev es md =>
    unfold processOriginBlockLine at h
    simp only [] at h
    rcases hg1 : getOrCreate db (.agency (sliceStrip l 118 127) es) [] with
        e | ⟨agId, agCr, db1⟩ <;> rw [hg1] at h <;> simp only [] at h
    · simp only [Prod.mk.injEq] at h
      obtain ⟨h1, h2, -⟩ := h
      subst h1; subst h2
      exact ⟨rfl, rfl, Or.inl rfl⟩
    · have hf1 := getOrCreate_frame _ _ _ _ _ _ hg1
      rcases hd : decodeOriginData l with e | od <;> rw [hd] at h <;>
        simp only [] at h
      · simp only [Prod.mk.injEq] at h
        obtain ⟨h1, h2, -⟩ := h
        subst h1; subst h2
        exact ⟨hf1.1, hf1.2, Or.inl rfl⟩
      · rcases hg2 : getOrCreate db1 (.origin od.sourceKey es) od.data with
            e | ⟨orId, orCr, db3⟩ <;> rw [hg2] at h
        · simp only [Prod.mk.injEq] at h
          obtain ⟨h1, h2, -⟩ := h
          subst h1; subst h2
          exact ⟨hf1.1, hf1.2, Or.inl rfl⟩
        · have hf2 := getOrCreate_frame _ _ _ _ _ _ hg2
          rcases hm : decodeMetadata l with e | meta <;> rw [hm] at h <;>
            simp only [Prod.mk.injEq] at h <;>
            obtain ⟨h1, h2, -⟩ := h <;> subst h1 <;> subst h2 <;>
            exact ⟨hf2.1.trans hf1.1, hf2.2.trans hf1.2, Or.inl rfl⟩
  case measureBlockSt ev es md =>
    unfold processMeasureBlockLine at h
    rcases hd : decodeMeasureData l with e | d <;> rw [hd] at h <;>
      simp only [] at h
    · simp only [Prod.mk.injEq] at h
      obtain ⟨h1, h2, -⟩ := h
      subst h1; subst h2
      exact ⟨rfl, rfl, Or.inl rfl⟩
    · rcases hs : saveMeasure m.ctx db ev es d.agencyName d.originKey d.scale
          (.num d.value) d.stdErr with ⟨db1, rr⟩
      rw [hs] at h
      have hf := saveMeasure_frame _ _ _ _ _ _ _ _ _ _ _ hs
      rcases rr with e2 | created <;> (try simp only [] at h)
      · simp only [Prod.mk.injEq] at h
        obtain ⟨h1, h2, -⟩ := h
        subst h1; subst h2
        exact ⟨hf.1, hf.2, Or.inl rfl⟩
      · rcases hmd : md with _ | meta <;> rw [hmd] at h <;>
          simp only [Prod.mk.injEq] at h <;>
          obtain ⟨h1, h2, -⟩ := h <;> subst h1 <;> subst h2 <;>
          exact ⟨hf.1, hf.2, Or.inl rfl⟩
  case measureUKSt ev es md =>
    unfold processMeasureUKLine at h
    rcases hu : ukMatch l with _ | g <;> rw [hu] at h <;> simp only [] at h
    · simp only [Prod.mk.injEq] at h
      obtain ⟨h1, h2, -⟩ := h
      subst h1; subst h2
      exact ⟨rfl, rfl, Or.inl rfl⟩
    · rcases hs : saveMeasure m.ctx db ev es g.agency g.origin "Muk" (.str g.val)
          (match g.error with | some s => .str s | none => .nil) with ⟨db1, rr⟩
      rw [hs] at h
      have hf := saveMeasure_frame _ _ _ _ _ _ _ _ _ _ _ hs
      rcases rr with e2 | created <;> (try simp only [] at h)
      · simp only [Prod.mk.injEq] at h
        obtain ⟨h1, h2, -⟩ := h
        subst h1; subst h2
        exact ⟨hf.1, hf.2, Or.inl rfl⟩
      · rcases hmd : md with _ | meta <;> rw [hmd] at h <;>
          simp only [Prod.mk.injEq] at h <;>
          obtain ⟨h1, h2, -⟩ := h <;> subst h1 <;> subst h2 <;>
          exact ⟨hf.1, hf.2, Or.inl rfl⟩

/-- C3 (counterexample): with no integrity violation reported by the
store (`failOps = []`), a run whose measure line references an origin id
never established in the context aborts with an uncaught KeyError — so a
fatal persistence conflict is not the only condition under which `store`
raises instead of returning a Summary. -/
theorem C3_counterexample :
    uncaughtErr (runStore [catalogueHeaderLine, eventLine1, originHeaderLine,
      originLine1, measureHeaderLine, badRefMeasureLine] true []) =
      some .keyErr ∧
    okMachine (runStore [catalogueHeaderLine, eventLine1, originHeaderLine,
      originLine1, measureHeaderLine, badRefMeasureLine] true []) = none := by
  decide

/-- C3 (amended): whenever the persistence collaborator reports an
integrity violation while a line is being decoded, the importer rolls the
session back (exactly one additional rollback), raises a `ParsingFailure`
carrying that line's 1-based number, nothing remains pending, and the
committed rows are exactly those committed before the call — no partial
records are committed.  (This is however not the only way `store` can
raise: see the counterexample, where an AssertionError escapes.) -/
theorem C3_integrity_failure (aj : Bool) (n : ℕ) (l : String)
    (rest : List (ℕ × String)) (m : Machine) (db : Db) (sm : Summary)
    (lt : LineType) (next : PState) (m2 : Machine) (db2 : Db)
    (hdet : detectLineType (pyStrip l) (isStartM m) = lt)
    (hnc : lt ≠ .comment) (hns : lt ≠ .stop)
    (hsome : getNextState m.startES m.cur lt = some next)
    (hproc : processLine { m with cur := next } db (pyStrip l).toList =
      (m2, db2, .error .integrityErr)) :
    storeLoop aj ((n, l) :: rest) m db sm = .parsingFailure n (rollbackDb db2) ∧
    (rollbackDb db2).pending = [] ∧
    (rollbackDb db2).committed = db.committed ∧
    (rollbackDb db2).rollbacks = db.rollbacks + 1 := by
  have hframe := processLine_frame _ _ _ _ _ _ hproc
  have hs : storeStep aj n l m db sm = .fatalParse n (rollbackDb db2) := by
    simp only [storeStep, hdet, hsome, hproc]
    simp [hnc, hns]
  refine ⟨by simp [storeLoop, hs], rfl, ?_, ?_⟩
  · simpa [rollbackDb] using hframe.1
  · simp [rollbackDb, hframe.2.1]

/-- C3 (witness): the integrity theorem applied to a run whose very first
find-or-create reports a conflict. -/
theorem C3_integrity_failure_witness :
    storeLoop true [(1, "ISC Bulletin")] initMachine (emptyDb [0])
        Summary.empty = .parsingFailure 1 (rollbackDb (emptyDb [0])) ∧
    (rollbackDb (emptyDb [0])).pending = [] ∧
    (rollbackDb (emptyDb [0])).committed = (emptyDb [0]).committed ∧
    (rollbackDb (emptyDb [0])).rollbacks = (emptyDb [0]).rollbacks + 1 :=
  C3_integrity_failure true 1 "ISC Bulletin" [] initMachine (emptyDb [0])
    Summary.empty .catalogueHeader .start initMachine (emptyDb [0])
    (by decide) (by decide) (by decide) (by decide) (by decide)

/-- C10: once the initial state's event source is established (after the
first catalogue-header line is processed), `is_start` is False, and every
continuing step of the loop preserves an established event source — block
recovery re-installs the same initial state object, which retains it — so
`is_start` stays False for the rest of the run and length-based
classification of 136- and 38-character lines stays enabled after any
recovery. -/
theorem C10_start_latch (aj : Bool) (n : ℕ) (l : String) (m : Machine)
    (db : Db) (sm : Summary) (e : ℕ) (m2 : Machine) (db2 : Db) (sm2 : Summary)
    (hes : m.startES = some e)
    (hstep : storeStep aj n l m db sm = .cont m2 db2 sm2) :
    isStartM m = false ∧ (∃ e2, m2.startES = some e2) ∧ isStartM m2 = false := by
  have h1 : isStartM m = false := by
    cases hc : m.cur <;> simp [isStartM, hc, hes]
  have key : ∃ e2, m2.startES = some e2 := by
    simp only [storeStep] at hstep
    split at hstep
    · simp only [StepOut.cont.injEq] at hstep
      obtain ⟨hm, -, -⟩ := hstep
      subst hm
      exact ⟨e, hes⟩
    · split at hstep
      · simp at hstep
      · split at hstep
        · split at hstep
          · simp only [StepOut.cont.injEq] at hstep
            obtain ⟨hm, -, -⟩ := hstep
            subst hm
            exact ⟨e, hes⟩
          · simp only [StepOut.cont.injEq] at hstep
            obtain ⟨hm, -, -⟩ := hstep
            subst hm
            exact ⟨e, hes⟩
        · rename_i next hnext
          rcases hp : processLine { m with cur := next } db (pyStrip l).toList
            with ⟨mp, dbp, rp⟩
          rw [hp] at hstep
          have hfr := (processLine_frame _ _ _ _ _ _ hp).2.2
          have hmp : ∃ k, mp.startES = some k := by
            rcases hfr with hsame | hk
            · exact ⟨e, by rw [hsame]; exact hes⟩
            · exact hk
          rcases rp with er | out
          · rcases er <;> simp only [] at hstep
            case integrityErr => simp at hstep
            case valueErr =>
              split at hstep <;> simp only [StepOut.cont.injEq] at hstep <;>
                obtain ⟨hm, -, -⟩ := hstep <;> subst hm
              · exact hmp
              · obtain ⟨k, hk⟩ := hmp
                exact ⟨k, hk⟩
            all_goals simp at hstep
          · simp only [StepOut.cont.injEq] at hstep
            obtain ⟨hm, -, -⟩ := hstep
            subst hm
            exact hmp
  obtain ⟨e2, he2⟩ := key
  have h2 : isStartM m2 = false := by
    cases hc2 : m2.cur <;> simp [isStartM, hc2, he2]
  exact ⟨h1, ⟨e2, he2⟩, h2⟩

/-- C10 (witness): a junk line hitting the recovery path after the event
source is established keeps the event source and leaves `is_start`
False. -/
theorem C10_start_latch_witness :
    isStartM ⟨some 0, .start, ⟨[], []⟩⟩ = false ∧
    (∃ e2, (⟨some 0, .start, ⟨[], []⟩⟩ : Machine).startES = some e2) ∧
    isStartM ⟨some 0, .start, ⟨[], []⟩⟩ = false :=
  C10_start_latch true 1 "???" ⟨some 0, .start, ⟨[], []⟩⟩ (emptyDb [])
    Summary.empty 0 ⟨some 0, .start, ⟨[], []⟩⟩ (rollbackDb (emptyDb []))
    (Summary.empty.addError 1) rfl (by decide)

/-- C1 (counterexample): the concrete recovery scenario — a valid
single-event block, the invalid line `"???"` at line 7, a second valid
block — returns a Summary with exactly one error carrying line number 7
and both blocks counted, but the final commit holds only five rows (the
second block's), and no committed row carries the first block's event key:
the recovery's `_parsing_error` rolled back the session, discarding the
first block's pending records. -/
theorem C1_counterexample :
    okErrors (runStore c1Lines true []) = [7] ∧
    okCounts (runStore c1Lines true []) = ⟨2, 2, 2, 2, 2⟩ ∧
    (okCommitted (runStore c1Lines true [])).length = 5 ∧
    (okCommitted (runStore c1Lines true [])).all
      (fun r => !(decide (r.key = .event "ev01" 0))) = true := by
  decide

/-- C1 (amended): for every input stream made of a valid single-event
block, one invalid (junk) line, and a second valid single-event block,
`store` returns a Summary recording exactly one parse error carrying the
invalid line's 1-based number, both blocks' records are decoded and
counted, and the parser state after the invalid line is the retained
initial Start state; but only the second block's records are committed by
the final commit — the recovery's `_parsing_error` issues a rollback that
discards the first block's still-pending records. -/
theorem C1_recovery (e1 oh1 o1 mh1 me1 bad e2 oh2 o2 mh2 me2 : String)
    (sk1 nm1 sk2 nm2 : String) (od1 od2 : OriginData)
    (mt1 mt2 : List (String × PyVal)) (d1 d2 : MeasureData)
    (hs1 : pyStrip e1 = e1) (hs2 : pyStrip oh1 = oh1) (hs3 : pyStrip o1 = o1)
    (hs4 : pyStrip mh1 = mh1) (hs5 : pyStrip me1 = me1)
    (hs6 : pyStrip bad = bad) (hs7 : pyStrip e2 = e2)
    (hs8 : pyStrip oh2 = oh2) (hs9 : pyStrip o2 = o2)
    (hs10 : pyStrip mh2 = mh2) (hs11 : pyStrip me2 = me2)
    (hde1 : detectLineType e1 false = .eventHeader)
    (hdoh1 : detectLineType oh1 false = .originHeader)
    (hdo1 : detectLineType o1 false = .originBlock)
    (hdmh1 : detectLineType mh1 false = .measureHeader)
    (hdme1 : detectLineType me1 false = .measureBlock)
    (hdbad : detectLineType bad false = .junk)
    (hde2 : detectLineType e2 false = .eventHeader)
    (hdoh2 : detectLineType oh2 false = .originHeader)
    (hdo2 : detectLineType o2 false = .originBlock)
    (hdmh2 : detectLineType mh2 false = .measureHeader)
    (hdme2 : detectLineType me2 false = .measureBlock)
    (hev1 : eventMatch e1.toList = some (sk1, nm1))
    (hev2 : eventMatch e2.toList = some (sk2, nm2))
    (hor1 : decodeOriginData o1.toList = .ok od1)
    (hor2 : decodeOriginData o2.toList = .ok od2)
    (hmt1 : decodeMetadata o1.toList = .ok mt1)
    (hmt2 : decodeMetadata o2.toList = .ok mt2)
    (hms1 : decodeMeasureData me1.toList = .ok d1)
    (hms2 : decodeMeasureData me2.toList = .ok d2)
    (hk1 : d1.originKey = od1.sourceKey)
    (hk2 : d2.originKey = od2.sourceKey)
    (hag1 : d1.agencyName = sliceStrip o1.toList 118 127)
    (hag2 : d2.agencyName = sliceStrip o2.toList 118 127)
    (hn1 : sliceStrip o1.toList 118 127 ≠ "agency_name")
    (hn2 : sliceStrip o2.toList 118 127 ≠ "agency_name") :
    (∃ db7 m7,
      store ["ISC Bulletin", e1, oh1, o1, mh1, me1, bad] true initMachine
          (emptyDb []) Summary.empty = .ok ⟨⟨1, 1, 1, 1, 1⟩, [7]⟩ db7 m7 ∧
      m7.cur = .start ∧ m7.startES = some 0 ∧ db7.committed = []) ∧
    (∃ db13 m13,
      store ["ISC Bulletin", e1, oh1, o1, mh1, me1, bad, "ISC Bulletin", e2,
          oh2, o2, mh2, me2] true initMachine (emptyDb []) Summary.empty =
        .ok ⟨⟨2, 2, 2, 2, 2⟩, [7]⟩ db13 m13 ∧
      db13.pending = [] ∧
      db13.committed.map Record.id = [5, 6, 7, 8, 9] ∧
      (∃ rec ∈ db13.committed, rec.key = .event sk2 5) ∧
      (∀ rec ∈ db13.committed, rec.key ≠ .event sk1 0 ∧
        rec.key ≠ .origin od1.sourceKey 0 ∧
        rec.key ≠ .measure 1 3 (.ref 2) d1.scale)) := by
  have hev1d : eventMatch e1.data = some (sk1, nm1) := hev1
  have hev2d : eventMatch e2.data = some (sk2, nm2) := hev2
  have hor1d : decodeOriginData o1.data = .ok od1 := hor1
  have hor2d : decodeOriginData o2.data = .ok od2 := hor2
  have hmt1d : decodeMetadata o1.data = .ok mt1 := hmt1
  have hmt2d : decodeMetadata o2.data = .ok mt2 := hmt2
  have hms1d : decodeMeasureData me1.data = .ok d1 := hms1
  have hms2d : decodeMeasureData me2.data = .ok d2 := hms2
  have hag1d : d1.agencyName = sliceStrip o1.data 118 127 := hag1
  have hag2d : d2.agencyName = sliceStrip o2.data 118 127 := hag2
  have hn1d : sliceStrip o1.data 118 127 ≠ "agency_name" := hn1
  have hn2d : sliceStrip o2.data 118 127 ≠ "agency_name" := hn2
  have step1 : storeStep true 1 "ISC Bulletin"
      (initMachine : Machine)
      (emptyDb [] : Db)
      (Summary.empty : Summary) =
      .cont (⟨some 0, .start, ⟨[], []⟩⟩ : Machine)
        (⟨[], [⟨0, .eventSource "ISC Bulletin", []⟩], [], 1, [], 1, 0⟩ : Db)
        (⟨⟨1, 0, 0, 0, 0⟩, []⟩ : Summary) := by
    decide
  have step2 : storeStep true 2 e1
      (⟨some 0, .start, ⟨[], []⟩⟩ : Machine)
      (⟨[], [⟨0, .eventSource "ISC Bulletin", []⟩], [], 1, [], 1, 0⟩ : Db)
      (⟨⟨1, 0, 0, 0, 0⟩, []⟩ : Summary) =
      .cont (⟨some 0, .eventSt 0 (some 1), ⟨[], []⟩⟩ : Machine)
        (⟨[], [⟨0, .eventSource "ISC Bulletin", []⟩, ⟨1, .event sk1 0, []⟩], [(1, nm1)], 2, [], 2, 0⟩ : Db)
        (⟨⟨1, 1, 0, 0, 0⟩, []⟩ : Summary) := by
    have h0 : isStartM (⟨some 0, .start, ⟨[], []⟩⟩ : Machine) = false := rfl
    simp only [storeStep, hs1, h0, hde1]
    simp only [processLine, processEvent, hev1, hev1d, getOrCreate, getNextState]
    simp [List.find?, dbGetName, dbSetName, lookupA, Summary.addCounts]
  have step3 : storeStep true 3 oh1
      (⟨some 0, .eventSt 0 (some 1), ⟨[], []⟩⟩ : Machine)
      (⟨[], [⟨0, .eventSource "ISC Bulletin", []⟩, ⟨1, .event sk1 0, []⟩], [(1, nm1)], 2, [], 2, 0⟩ : Db)
      (⟨⟨1, 1, 0, 0, 0⟩, []⟩ : Summary) =
      .cont (⟨some 0, .originHeaderSt 1 0, ⟨[], []⟩⟩ : Machine)
        (⟨[], [⟨0, .eventSource "ISC Bulletin", []⟩, ⟨1, .event sk1 0, []⟩], [(1, nm1)], 2, [], 2, 0⟩ : Db)
        (⟨⟨1, 1, 0, 0, 0⟩, []⟩ : Summary) := by
    have h0 : isStartM (⟨some 0, .eventSt 0 (some 1), ⟨[], []⟩⟩ : Machine) = false := rfl
    simp only [storeStep, hs2, h0, hdoh1]
    simp [processLine, getNextState, Summary.addCounts, Counts.zero]
  have step4 : storeStep true 4 o1
      (⟨some 0, .originHeaderSt 1 0, ⟨[], []⟩⟩ : Machine)
      (⟨[], [⟨0, .eventSource "ISC Bulletin", []⟩, ⟨1, .event sk1 0, []⟩], [(1, nm1)], 2, [], 2, 0⟩ : Db)
      (⟨⟨1, 1, 0, 0, 0⟩, []⟩ : Summary) =
      .cont (⟨some 0, .originBlockSt 1 0 (some mt1), ⟨[(sliceStrip o1.toList 118 127, .pair (.ref 2) (.bool true))], [(od1.sourceKey, 3)]⟩⟩ : Machine)
        (⟨[], [⟨0, .eventSource "ISC Bulletin", []⟩, ⟨1, .event sk1 0, []⟩, ⟨2, .agency (sliceStrip o1.toList 118 127) 0, []⟩, ⟨3, .origin od1.sourceKey 0, od1.data⟩], [(1, nm1)], 4, [], 4, 0⟩ : Db)
        (⟨⟨1, 1, 1, 1, 0⟩, []⟩ : Summary) := by
    have h0 : isStartM (⟨some 0, .originHeaderSt 1 0, ⟨[], []⟩⟩ : Machine) = false := rfl
    simp only [storeStep, hs3, h0, hdo1]
    simp only [processLine, processOriginBlockLine, getNextState, hor1, hor1d, hmt1, hmt1d, getOrCreate]
    simp [List.find?, setA, Summary.addCounts]
  have step5 : storeStep true 5 mh1
      (⟨some 0, .originBlockSt 1 0 (some mt1), ⟨[(sliceStrip o1.toList 118 127, .pair (.ref 2) (.bool true))], [(od1.sourceKey, 3)]⟩⟩ : Machine)
      (⟨[], [⟨0, .eventSource "ISC Bulletin", []⟩, ⟨1, .event sk1 0, []⟩, ⟨2, .agency (sliceStrip o1.toList 118 127) 0, []⟩, ⟨3, .origin od1.sourceKey 0, od1.data⟩], [(1, nm1)], 4, [], 4, 0⟩ : Db)
      (⟨⟨1, 1, 1, 1, 0⟩, []⟩ : Summary) =
      .cont (⟨some 0, .measureHeaderSt 1 0 (some mt1), ⟨[(sliceStrip o1.toList 118 127, .pair (.ref 2) (.bool true))], [(od1.sourceKey, 3)]⟩⟩ : Machine)
        (⟨[], [⟨0, .eventSource "ISC Bulletin", []⟩, ⟨1, .event sk1 0, []⟩, ⟨2, .agency (sliceStrip o1.toList 118 127) 0, []⟩, ⟨3, .origin od1.sourceKey 0, od1.data⟩], [(1, nm1)], 4, [], 4, 0⟩ : Db)
        (⟨⟨1, 1, 1, 1, 0⟩, []⟩ : Summary) := by
    have h0 : isStartM (⟨some 0, .originBlockSt 1 0 (some mt1), ⟨[(sliceStrip o1.toList 118 127, .pair (.ref 2) (.bool true))], [(od1.sourceKey, 3)]⟩⟩ : Machine) = false := rfl
    simp only [storeStep, hs4, h0, hdmh1]
    simp [processLine, getNextState, Summary.addCounts, Counts.zero]
  have step6 : storeStep true 6 me1
      (⟨some 0, .measureHeaderSt 1 0 (some mt1), ⟨[(sliceStrip o1.toList 118 127, .pair (.ref 2) (.bool true))], [(od1.sourceKey, 3)]⟩⟩ : Machine)
      (⟨[], [⟨0, .eventSource "ISC Bulletin", []⟩, ⟨1, .event sk1 0, []⟩, ⟨2, .agency (sliceStrip o1.toList 118 127) 0, []⟩, ⟨3, .origin od1.sourceKey 0, od1.data⟩], [(1, nm1)], 4, [], 4, 0⟩ : Db)
      (⟨⟨1, 1, 1, 1, 0⟩, []⟩ : Summary) =
      .cont (⟨some 0, .measureBlockSt 1 0 (some (setA mt1 "stations" d1.stations)), ⟨[(sliceStrip o1.toList 118 127, .pair (.ref 2) (.bool true))], [(od1.sourceKey, 3)]⟩⟩ : Machine)
        (⟨[], [⟨0, .eventSource "ISC Bulletin", []⟩, ⟨1, .event sk1 0, []⟩, ⟨2, .agency (sliceStrip o1.toList 118 127) 0, []⟩, ⟨3, .origin od1.sourceKey 0, od1.data⟩, ⟨4, .measure 1 3 (.ref 2) d1.scale, [("value", .num d1.value), ("standard_error", d1.stdErr)]⟩], [(1, nm1)], 5, [], 6, 0⟩ : Db)
        (⟨⟨1, 1, 1, 1, 1⟩, []⟩ : Summary) := by
    have h0 : isStartM (⟨some 0, .measureHeaderSt 1 0 (some mt1), ⟨[(sliceStrip o1.toList 118 127, .pair (.ref 2) (.bool true))], [(od1.sourceKey, 3)]⟩⟩ : Machine) = false := rfl
    simp only [storeStep, hs5, h0, hdme1]
    simp only [processLine, processMeasureBlockLine, getNextState, hms1, hms1d, hag1, hag1d, hk1, saveMeasure, getOrCreate]
    simp [List.find?, lookupA, hn1, hn1d, setA, Summary.addCounts]
  have step7 : storeStep true 7 bad
      (⟨some 0, .measureBlockSt 1 0 (some (setA mt1 "stations" d1.stations)), ⟨[(sliceStrip o1.toList 118 127, .pair (.ref 2) (.bool true))], [(od1.sourceKey, 3)]⟩⟩ : Machine)
      (⟨[], [⟨0, .eventSource "ISC Bulletin", []⟩, ⟨1, .event sk1 0, []⟩, ⟨2, .agency (sliceStrip o1.toList 118 127) 0, []⟩, ⟨3, .origin od1.sourceKey 0, od1.data⟩, ⟨4, .measure 1 3 (.ref 2) d1.scale, [("value", .num d1.value), ("standard_error", d1.stdErr)]⟩], [(1, nm1)], 5, [], 6, 0⟩ : Db)
      (⟨⟨1, 1, 1, 1, 1⟩, []⟩ : Summary) =
      .cont (⟨some 0, .start, ⟨[(sliceStrip o1.toList 118 127, .pair (.ref 2) (.bool true))], [(od1.sourceKey, 3)]⟩⟩ : Machine)
        (⟨[], [], [], 5, [], 6, 1⟩ : Db)
        (⟨⟨1, 1, 1, 1, 1⟩, [7]⟩ : Summary) := by
    have h0 : isStartM (⟨some 0, .measureBlockSt 1 0 (some (setA mt1 "stations" d1.stations)), ⟨[(sliceStrip o1.toList 118 127, .pair (.ref 2) (.bool true))], [(od1.sourceKey, 3)]⟩⟩ : Machine) = false := rfl
    simp only [storeStep, hs6, h0, hdbad]
    simp [getNextState, rollbackDb, Summary.addError]
  have step8 : storeStep true 8 "ISC Bulletin"
      (⟨some 0, .start, ⟨[(sliceStrip o1.toList 118 127, .pair (.ref 2) (.bool true))], [(od1.sourceKey, 3)]⟩⟩ : Machine)
      (⟨[], [], [], 5, [], 6, 1⟩ : Db)
      (⟨⟨1, 1, 1, 1, 1⟩, [7]⟩ : Summary) =
      .cont (⟨some 5, .start, ⟨[(sliceStrip o1.toList 118 127, .pair (.ref 2) (.bool true))], [(od1.sourceKey, 3)]⟩⟩ : Machine)
        (⟨[], [⟨5, .eventSource "ISC Bulletin", []⟩], [], 6, [], 7, 1⟩ : Db)
        (⟨⟨2, 1, 1, 1, 1⟩, [7]⟩ : Summary) := by
    have h0 : isStartM (⟨some 0, .start, ⟨[(sliceStrip o1.toList 118 127, .pair (.ref 2) (.bool true))], [(od1.sourceKey, 3)]⟩⟩ : Machine) = false := rfl
    have hcat : detectLineType "ISC Bulletin" false = .catalogueHeader := by decide
    have hstr : pyStrip "ISC Bulletin" = "ISC Bulletin" := by decide
    simp only [storeStep, hstr, h0, hcat]
    simp only [processLine, processStart, getOrCreate, getNextState]
    simp [List.find?, Summary.addCounts]
  have step9 : storeStep true 9 e2
      (⟨some 5, .start, ⟨[(sliceStrip o1.toList 118 127, .pair (.ref 2) (.bool true))], [(od1.sourceKey, 3)]⟩⟩ : Machine)
      (⟨[], [⟨5, .eventSource "ISC Bulletin", []⟩], [], 6, [], 7, 1⟩ : Db)
      (⟨⟨2, 1, 1, 1, 1⟩, [7]⟩ : Summary) =
      .cont (⟨some 5, .eventSt 5 (some 6), ⟨[(sliceStrip o1.toList 118 127, .pair (.ref 2) (.bool true))], [(od1.sourceKey, 3)]⟩⟩ : Machine)
        (⟨[], [⟨5, .eventSource "ISC Bulletin", []⟩, ⟨6, .event sk2 5, []⟩], [(6, nm2)], 7, [], 8, 1⟩ : Db)
        (⟨⟨2, 2, 1, 1, 1⟩, [7]⟩ : Summary) := by
    have h0 : isStartM (⟨some 5, .start, ⟨[(sliceStrip o1.toList 118 127, .pair (.ref 2) (.bool true))], [(od1.sourceKey, 3)]⟩⟩ : Machine) = false := rfl
    simp only [storeStep, hs7, h0, hde2]
    simp only [processLine, processEvent, hev2, hev2d, getOrCreate, getNextState]
    simp [List.find?, dbGetName, dbSetName, lookupA, Summary.addCounts]
  have step10 : storeStep true 10 oh2
      (⟨some 5, .eventSt 5 (some 6), ⟨[(sliceStrip o1.toList 118 127, .pair (.ref 2) (.bool true))], [(od1.sourceKey, 3)]⟩⟩ : Machine)
      (⟨[], [⟨5, .eventSource "ISC Bulletin", []⟩, ⟨6, .event sk2 5, []⟩], [(6, nm2)], 7, [], 8, 1⟩ : Db)
      (⟨⟨2, 2, 1, 1, 1⟩, [7]⟩ : Summary) =
      .cont (⟨some 5, .originHeaderSt 6 5, ⟨[(sliceStrip o1.toList 118 127, .pair (.ref 2) (.bool true))], [(od1.sourceKey, 3)]⟩⟩ : Machine)
        (⟨[], [⟨5, .eventSource "ISC Bulletin", []⟩, ⟨6, .event sk2 5, []⟩], [(6, nm2)], 7, [], 8, 1⟩ : Db)
        (⟨⟨2, 2, 1, 1, 1⟩, [7]⟩ : Summary) := by
    have h0 : isStartM (⟨some 5, .eventSt 5 (some 6), ⟨[(sliceStrip o1.toList 118 127, .pair (.ref 2) (.bool true))], [(od1.sourceKey, 3)]⟩⟩ : Machine) = false := rfl
    simp only [storeStep, hs8, h0, hdoh2]
    simp [processLine, getNextState, Summary.addCounts, Counts.zero]
  have step11 : storeStep true 11 o2
      (⟨some 5, .originHeaderSt 6 5, ⟨[(sliceStrip o1.toList 118 127, .pair (.ref 2) (.bool true))], [(od1.sourceKey, 3)]⟩⟩ : Machine)
      (⟨[], [⟨5, .eventSource "ISC Bulletin", []⟩, ⟨6, .event sk2 5, []⟩], [(6, nm2)], 7, [], 8, 1⟩ : Db)
      (⟨⟨2, 2, 1, 1, 1⟩, [7]⟩ : Summary) =
      .cont (⟨some 5, .originBlockSt 6 5 (some mt2), ⟨setA [(sliceStrip o1.toList 118 127, PyVal.pair (.ref 2) (.bool true))] (sliceStrip o2.toList 118 127) (.pair (.ref 7) (.bool true)), setA [(od1.sourceKey, 3)] od2.sourceKey 8⟩⟩ : Machine)
        (⟨[], [⟨5, .eventSource "ISC Bulletin", []⟩, ⟨6, .event sk2 5, []⟩, ⟨7, .agency (sliceStrip o2.toList 118 127) 5, []⟩, ⟨8, .origin od2.sourceKey 5, od2.data⟩], [(6, nm2)], 9, [], 10, 1⟩ : Db)
        (⟨⟨2, 2, 2, 2, 1⟩, [7]⟩ : Summary) := by
    have h0 : isStartM (⟨some 5, .originHeaderSt 6 5, ⟨[(sliceStrip o1.toList 118 127, .pair (.ref 2) (.bool true))], [(od1.sourceKey, 3)]⟩⟩ : Machine) = false := rfl
    simp only [storeStep, hs9, h0, hdo2]
    simp only [processLine, processOriginBlockLine, getNextState, hor2, hor2d, hmt2, hmt2d, getOrCreate]
    simp [List.find?, Summary.addCounts]
  have step12 : storeStep true 12 mh2
      (⟨some 5, .originBlockSt 6 5 (some mt2), ⟨setA [(sliceStrip o1.toList 118 127, PyVal.pair (.ref 2) (.bool true))] (sliceStrip o2.toList 118 127) (.pair (.ref 7) (.bool true)), setA [(od1.sourceKey, 3)] od2.sourceKey 8⟩⟩ : Machine)
      (⟨[], [⟨5, .eventSource "ISC Bulletin", []⟩, ⟨6, .event sk2 5, []⟩, ⟨7, .agency (sliceStrip o2.toList 118 127) 5, []⟩, ⟨8, .origin od2.sourceKey 5, od2.data⟩], [(6, nm2)], 9, [], 10, 1⟩ : Db)
      (⟨⟨2, 2, 2, 2, 1⟩, [7]⟩ : Summary) =
      .cont (⟨some 5, .measureHeaderSt 6 5 (some mt2), ⟨setA [(sliceStrip o1.toList 118 127, PyVal.pair (.ref 2) (.bool true))] (sliceStrip o2.toList 118 127) (.pair (.ref 7) (.bool true)), setA [(od1.sourceKey, 3)] od2.sourceKey 8⟩⟩ : Machine)
        (⟨[], [⟨5, .eventSource "ISC Bulletin", []⟩, ⟨6, .event sk2 5, []⟩, ⟨7, .agency (sliceStrip o2.toList 118 127) 5, []⟩, ⟨8, .origin od2.sourceKey 5, od2.data⟩], [(6, nm2)], 9, [], 10, 1⟩ : Db)
        (⟨⟨2, 2, 2, 2, 1⟩, [7]⟩ : Summary) := by
    have h0 : isStartM (⟨some 5, .originBlockSt 6 5 (some mt2), ⟨setA [(sliceStrip o1.toList 118 127, PyVal.pair (.ref 2) (.bool true))] (sliceStrip o2.toList 118 127) (.pair (.ref 7) (.bool true)), setA [(od1.sourceKey, 3)] od2.sourceKey 8⟩⟩ : Machine) = false := rfl
    simp only [storeStep, hs10, h0, hdmh2]
    simp [processLine, getNextState, Summary.addCounts, Counts.zero]
  have step13 : storeStep true 13 me2
      (⟨some 5, .measureHeaderSt 6 5 (some mt2), ⟨setA [(sliceStrip o1.toList 118 127, PyVal.pair (.ref 2) (.bool true))] (sliceStrip o2.toList 118 127) (.pair (.ref 7) (.bool true)), setA [(od1.sourceKey, 3)] od2.sourceKey 8⟩⟩ : Machine)
      (⟨[], [⟨5, .eventSource "ISC Bulletin", []⟩, ⟨6, .event sk2 5, []⟩, ⟨7, .agency (sliceStrip o2.toList 118 127) 5, []⟩, ⟨8, .origin od2.sourceKey 5, od2.data⟩], [(6, nm2)], 9, [], 10, 1⟩ : Db)
      (⟨⟨2, 2, 2, 2, 1⟩, [7]⟩ : Summary) =
      .cont (⟨some 5, .measureBlockSt 6 5 (some (setA mt2 "stations" d2.stations)), ⟨setA [(sliceStrip o1.toList 118 127, PyVal.pair (.ref 2) (.bool true))] (sliceStrip o2.toList 118 127) (.pair (.ref 7) (.bool true)), setA [(od1.sourceKey, 3)] od2.sourceKey 8⟩⟩ : Machine)
        (⟨[], [⟨5, .eventSource "ISC Bulletin", []⟩, ⟨6, .event sk2 5, []⟩, ⟨7, .agency (sliceStrip o2.toList 118 127) 5, []⟩, ⟨8, .origin od2.sourceKey 5, od2.data⟩, ⟨9, .measure 6 8 (.ref 7) d2.scale, [("value", .num d2.value), ("standard_error", d2.stdErr)]⟩], [(6, nm2)], 10, [], 12, 1⟩ : Db)
        (⟨⟨2, 2, 2, 2, 2⟩, [7]⟩ : Summary) := by
    have h0 : isStartM (⟨some 5, .measureHeaderSt 6 5 (some mt2), ⟨setA [(sliceStrip o1.toList 118 127, PyVal.pair (.ref 2) (.bool true))] (sliceStrip o2.toList 118 127) (.pair (.ref 7) (.bool true)), setA [(od1.sourceKey, 3)] od2.sourceKey 8⟩⟩ : Machine) = false := rfl
    simp only [storeStep, hs11, h0, hdme2]
    simp only [processLine, processMeasureBlockLine, getNextState, hms2, hms2d, hag2, hag2d, hk2, saveMeasure, getOrCreate]
    simp [List.find?, lookupA_setA, lookupA, hn1, hn1d, hn2, hn2d, Summary.addCounts]
  have run7 : store ["ISC Bulletin", e1, oh1, o1, mh1, me1, bad] true
      initMachine (emptyDb []) Summary.empty =
      .ok ⟨⟨1, 1, 1, 1, 1⟩, [7]⟩ (⟨[], [], [], 5, [], 6, 1⟩ : Db)
        (⟨some 0, .start, ⟨[(sliceStrip o1.toList 118 127, .pair (.ref 2) (.bool true))], [(od1.sourceKey, 3)]⟩⟩ : Machine) := by
    unfold store enumerate1
    simp only [List.enum, List.enumFrom, List.map]
    norm_num
    rw [storeLoop_cons_cont step1, storeLoop_cons_cont step2,
      storeLoop_cons_cont step3, storeLoop_cons_cont step4,
      storeLoop_cons_cont step5, storeLoop_cons_cont step6,
      storeLoop_cons_cont step7]
    simp [storeLoop, commitDb, applyNameUpdates]
  have run13 : store ["ISC Bulletin", e1, oh1, o1, mh1, me1, bad,
      "ISC Bulletin", e2, oh2, o2, mh2, me2] true initMachine (emptyDb [])
      Summary.empty =
      .ok ⟨⟨2, 2, 2, 2, 2⟩, [7]⟩
        (⟨[⟨5, .eventSource "ISC Bulletin", []⟩,
           ⟨6, .event sk2 5, [("name", .str nm2)]⟩,
           ⟨7, .agency (sliceStrip o2.toList 118 127) 5, []⟩,
           ⟨8, .origin od2.sourceKey 5, od2.data⟩,
           ⟨9, .measure 6 8 (.ref 7) d2.scale,
            [("value", .num d2.value), ("standard_error", d2.stdErr)]⟩],
          [], [], 10, [], 12, 1⟩ : Db)
        (⟨some 5, .measureBlockSt 6 5 (some (setA mt2 "stations" d2.stations)),
          ⟨setA [(sliceStrip o1.toList 118 127, PyVal.pair (.ref 2) (.bool true))]
            (sliceStrip o2.toList 118 127) (.pair (.ref 7) (.bool true)),
           setA [(od1.sourceKey, 3)] od2.sourceKey 8⟩⟩ : Machine) := by
    unfold store enumerate1
    simp only [List.enum, List.enumFrom, List.map]
    norm_num
    rw [storeLoop_cons_cont step1, storeLoop_cons_cont step2,
      storeLoop_cons_cont step3, storeLoop_cons_cont step4,
      storeLoop_cons_cont step5, storeLoop_cons_cont step6,
      storeLoop_cons_cont step7, storeLoop_cons_cont step8,
      storeLoop_cons_cont step9, storeLoop_cons_cont step10,
      storeLoop_cons_cont step11, storeLoop_cons_cont step12,
      storeLoop_cons_cont step13]
    simp [storeLoop, commitDb, applyNameUpdates, setA]
  constructor
  · exact ⟨_, _, run7, rfl, rfl, rfl⟩
  · refine ⟨_, _, run13, rfl, rfl, ?_, ?_⟩
    · exact ⟨⟨6, .event sk2 5, [("name", .str nm2)]⟩, by simp, rfl⟩
    · intro rec hrec
      simp only [List.mem_cons, List.mem_singleton] at hrec
      rcases hrec with rfl | rfl | rfl | rfl | rfl | h
      · exact ⟨by simp, by simp, by simp⟩
      · exact ⟨by simp, by simp, by simp⟩
      · exact ⟨by simp, by simp, by simp⟩
      · exact ⟨by simp, by simp, by simp⟩
      · exact ⟨by simp, by simp, by simp⟩
      · exact absurd h (List.not_mem_nil rec)



/-- C1 (witness): the recovery theorem applied to the concrete scenario
lines of `c1Lines`. -/
theorem C1_recovery_witness :
    (∃ db7 m7,
      store ["ISC Bulletin", eventLine1, originHeaderLine, originLine1,
          measureHeaderLine, measureLine1, badLine] true initMachine
          (emptyDb []) Summary.empty = .ok ⟨⟨1, 1, 1, 1, 1⟩, [7]⟩ db7 m7 ∧
      m7.cur = .start ∧ m7.startES = some 0 ∧ db7.committed = []) ∧
    (∃ db13 m13,
      store ["ISC Bulletin", eventLine1, originHeaderLine, originLine1,
          measureHeaderLine, measureLine1, badLine, "ISC Bulletin", eventLine2,
          originHeaderLine, originLine1, measureHeaderLine, measureLine1] true
          initMachine (emptyDb []) Summary.empty =
        .ok ⟨⟨2, 2, 2, 2, 2⟩, [7]⟩ db13 m13 ∧
      db13.pending = [] ∧
      db13.committed.map Record.id = [5, 6, 7, 8, 9] ∧
      (∃ rec ∈ db13.committed, rec.key = .event "ev02" 5) ∧
      (∀ rec ∈ db13.committed, rec.key ≠ .event "ev01" 0 ∧
        rec.key ≠ .origin "OID00001" 0 ∧
        rec.key ≠ .measure 1 3 (.ref 2) "mb")) :=
  C1_recovery eventLine1 originHeaderLine originLine1 measureHeaderLine
    measureLine1 badLine eventLine2 originHeaderLine originLine1
    measureHeaderLine measureLine1 "ev01" "First" "ev02" "Second"
    ⟨"OID00001", [("time", .date 2009 8 19 1 2 3 0), ("time_error", .nil),
      ("time_rms", .nil), ("position", .pos ⟨125000, 4⟩ ⟨1002500, 4⟩),
      ("semi_major_90error", .nil), ("semi_minor_90error", .nil),
      ("depth", .nil), ("depth_error", .nil), ("azimuth_error", .nil)]⟩
    ⟨"OID00001", [("time", .date 2009 8 19 1 2 3 0), ("time_error", .nil),
      ("time_rms", .nil), ("position", .pos ⟨125000, 4⟩ ⟨1002500, 4⟩),
      ("semi_major_90error", .nil), ("semi_minor_90error", .nil),
      ("depth", .nil), ("depth_error", .nil), ("azimuth_error", .nil)]⟩
    [("strike", .nil), ("phases", .nil), ("stations", .nil),
      ("distance_to_closest_station", .nil),
      ("distance_to_furthest_station", .nil), ("analysis_type", .nil),
      ("location_method", .nil), ("event_type", .nil)]
    [("strike", .nil), ("phases", .nil), ("stations", .nil),
      ("distance_to_closest_station", .nil),
      ("distance_to_furthest_station", .nil), ("analysis_type", .nil),
      ("location_method", .nil), ("event_type", .nil)]
    ⟨"mb", ⟨450, 2⟩, .nil, .nil, "GCMT", "OID00001"⟩
    ⟨"mb", ⟨450, 2⟩, .nil, .nil, "GCMT", "OID00001"⟩
    (by decide) (by decide) (by decide) (by decide) (by decide) (by decide)
    (by decide) (by decide) (by decide) (by decide) (by decide) (by decide)
    (by decide) (by decide) (by decide) (by decide) (by decide) (by decide)
    (by decide) (by decide) (by decide) (by decide) (by decide) (by decide)
    (by decide) (by decide) (by decide) (by decide) (by decide) (by decide)
    (by decide) (by decide) (by decide) (by decide) (by decide) (by decide)

end Isf
